import Mathlib

/-!
# The IMAP connection engine of vmime (`net/imap/IMAPConnection.cpp`)

A shallow embedding of `IMAPConnection`: the member variables become the fields of a
record, every member function becomes a state-passing function, C++ exceptions become
an explicit result that keeps the state reached when the exception was raised, and the
dereference of a null pointer becomes the result `crash`.

The collaborators whose code is not part of the translated file (socket, parser, tag
generator, SASL library, string utilities) are modelled from the specification; each
such definition says so in its documentation.
-/

namespace Vmime

/-! ## Collaborators -/

/-- Modelled from the spec: `utility::stringUtils::toUpper` (stringUtils is not part of the
translated sources); ASCII letters are mapped to upper case, other characters are kept. -/
def toUpper (s : String) : String := ⟨s.data.map Char.toUpper⟩

/-- Equality of two strings when ASCII letter case is ignored. -/
def eqIgnoreCase (a b : String) : Bool :=
  a.data.map Char.toLower == b.data.map Char.toLower

/-- Exceptions that cross the functions of the connection engine. `exception` is an
object of the base class `vmime::exception`, as `throw e` on a base reference makes. -/
inductive Exn where
  | already_connected
  | connection_greeting_error
  | command_error (command : String)
  | authentication_error (response : String)
  | sasl_exception (what : String)
  | no_such_mechanism
  | socket_exception
  | tls_exception
  | invalid_response
  | exception
  deriving DecidableEq

/-- Modelled from the spec: the tag generator `IMAPTag` (IMAPTag.hpp is not part of the
translated sources), a counter that yields `a001`, `a002`, ... -/
structure IMAPTag where
  number : Nat
  deriving DecidableEq

/-- Modelled from the spec: the tag a freshly created generator holds (`a001`). -/
def IMAPTag.initial : IMAPTag := ⟨1⟩

/-- Modelled from the spec: `IMAPTag::operator++`, the next tag of the sequence. -/
def IMAPTag.increment (t : IMAPTag) : IMAPTag := ⟨t.number + 1⟩

/-- Modelled from the spec: the printable form of a tag, the letter `a` followed by the
number in decimal, padded to three digits. -/
def IMAPTag.render (t : IMAPTag) : String :=
  let digits := Nat.toDigits 10 t.number
  ⟨'a' :: (List.replicate (3 - digits.length) '0' ++ digits)⟩

/-- Modelled from the spec: the transport (§4.1), a byte stream with connect, send,
is-connected and disconnect. `reachable`, `handshakes` and `accepts` say how the network
behaves for this socket: whether opening it succeeds, whether a TLS handshake over it
succeeds, and whether a write succeeds. `sent` logs what was written. `id` tells socket
objects apart; `layers` counts the TLS or SASL wrappers put around the plain socket. -/
structure Socket where
  id : Nat
  layers : Nat
  reachable : Bool
  handshakes : Bool
  accepts : Bool
  connected : Bool
  sent : List String
  deriving DecidableEq

/-- Modelled from the spec: `socket::send`; a write on a closed socket, or one the
network does not accept, raises a socket exception. -/
def Socket.send (s : Socket) (data : String) : Except Exn Socket :=
  if s.connected && s.accepts then .ok { s with sent := s.sent ++ [data] }
  else .error Exn.socket_exception

/-- Modelled from the spec: `socket::connect`; a wrapped (TLS) socket also performs
its handshake when it is opened. -/
def Socket.connect (s : Socket) : Except Exn Socket :=
  if !s.reachable then .error Exn.socket_exception
  else if s.layers != 0 && !s.handshakes then .error Exn.tls_exception
  else .ok { s with connected := true }

/-- Modelled from the spec: `socket::disconnect`. -/
def Socket.disconnect (s : Socket) : Socket := { s with connected := false }

/-- Modelled from the spec: a wrapper (TLS socket, SASL secured socket) around a
socket; it is a new socket object over the same byte stream. -/
def Socket.wrap (s : Socket) : Socket := { s with id := s.id + 1, layers := s.layers + 1 }

/-! ## The response tree delivered by the parser -/

/-- The `capability` node: an `AUTH=` mechanism or a plain atom. -/
inductive capability where
  | auth_type (name : String)
  | atom (value : String)
  deriving DecidableEq

/-- The `capability_data` node. -/
structure capability_data where
  capabilities : List capability
  deriving DecidableEq

/-- The `resp_text_code` node; only the `CAPABILITY` code carries capability data. -/
structure resp_text_code where
  capability_data : Option capability_data
  deriving DecidableEq

/-- The `resp_text` node. -/
structure resp_text where
  resp_text_code : Option resp_text_code
  text : String
  deriving DecidableEq

/-- The status of `resp_cond_state`. -/
inductive Status where
  | OK
  | NO
  | BAD
  deriving DecidableEq

/-- The `resp_cond_state` node. -/
structure resp_cond_state where
  status : Status
  resp_text : resp_text
  deriving DecidableEq

/-- The `response_done` node: tagged status or fatal `BYE`. -/
inductive response_done where
  | response_tagged (state : resp_cond_state)
  | response_fatal (bye : resp_text)
  deriving DecidableEq

/-- The `mailbox_list` node; only the hierarchy delimiter is read by the engine. -/
structure mailbox_list where
  quoted_char : Char
  deriving DecidableEq

/-- The `mailbox_data` node with its type; `LIST` and `LSUB` carry a mailbox list. -/
inductive mailbox_data where
  | FLAGS
  | LIST (list : mailbox_list)
  | LSUB (list : mailbox_list)
  | SEARCH
  | STATUS
  | EXISTS
  | RECENT
  deriving DecidableEq

/-- The `response_data` node. -/
inductive response_data where
  | resp_cond_state (state : Vmime.resp_cond_state)
  | resp_cond_bye (bye : resp_text)
  | mailbox_data (data : Vmime.mailbox_data)
  | message_data
  | capability_data (data : Vmime.capability_data)
  deriving DecidableEq

/-- The `continue_req_or_response_data` node. -/
inductive continue_req_or_response_data where
  | continue_req (text : resp_text)
  | response_data (data : Vmime.response_data)
  deriving DecidableEq

/-- The `response` node: the untagged items in arrival order and the final status. -/
structure response where
  continue_req_or_response_data : List Vmime.continue_req_or_response_data
  response_done : Option Vmime.response_done
  deriving DecidableEq

/-- The condition of `resp_cond_auth`. -/
inductive AuthCondition where
  | OK
  | PREAUTH
  deriving DecidableEq

/-- The `greeting` node. -/
inductive greeting where
  | resp_cond_auth (condition : AuthCondition) (text : resp_text)
  | resp_cond_bye (bye : resp_text)
  deriving DecidableEq

/-- What the server makes the parser deliver at one read. -/
inductive ParserEvent where
  | greeting (g : Vmime.greeting)
  | response (r : Vmime.response)
  | failure (e : Exn)
  deriving DecidableEq

/-- Modelled from the spec: the response parser (§4.3; IMAPParser.hpp is not part of the
translated sources). `socket` is the identity of its byte source, `script` what the
server will make it deliver, read by read. -/
structure IMAPParser where
  socket : Nat
  script : List ParserEvent
  deriving DecidableEq

/-- Modelled from the spec: `IMAPParser::response::isBad`, true when the response
does not end in a tagged status or ends in a tagged `BAD`. -/
def response.isBad (r : response) : Bool :=
  match r.response_done with
  | none => true
  | some (.response_fatal _) => true
  | some (.response_tagged st) => st.status == Status.BAD

/-! ## The connection object -/

/-- The protocol states. -/
inductive ProtocolStates where
  | STATE_NONE
  | STATE_NON_AUTHENTICATED
  | STATE_AUTHENTICATED
  | STATE_SELECTED
  | STATE_LOGOUT
  deriving DecidableEq

/-- The connection-info descriptor: `defaultConnectionInfos` when `secured` is false,
`TLSSecuredConnectionInfos` when it is true. -/
structure connectionInfos where
  host : String
  port : Nat
  secured : Bool
  deriving DecidableEq

/-- The configuration the connection reads from its store: the service properties, the
IMAPS flag and whether a time-out handler factory is installed. A property that is not
set is `none`. -/
structure IMAPStore where
  server_address : String
  server_port : Nat
  isIMAPS : Bool
  timeoutHandlerFactory : Bool
  connection_tls : Option Bool
  connection_tls_required : Option Bool
  options_sasl : Bool
  options_sasl_fallback : Bool
  deriving DecidableEq

/-- The authenticator: credentials, whether it is a SASL authenticator, and the
mechanism names it accepts, in its order of preference. -/
structure authenticator where
  username : String
  password : String
  isSASL : Bool
  acceptable : List String
  deriving DecidableEq

/-- The member variables of `IMAPConnection`. A null pointer is `none`. The field
`m_parserRef` is the member `m_parser` of the source. The last field, `released`, is not a
member: it holds the socket objects `m_socket` pointed to before it was cleared or
assigned anew, each in the state the connection left it in, oldest first. No member
function reads it; it keeps the effect of `m_socket->disconnect()` readable after
`m_socket = NULL`. -/
structure IMAPConnection where
  m_store : IMAPStore
  m_auth : authenticator
  m_socket : Option Socket
  m_parserRef : Option IMAPParser
  m_tag : Option IMAPTag
  m_hierarchySeparator : Char
  m_state : ProtocolStates
  m_timeoutHandler : Option Unit
  m_secured : Bool
  m_cntInfos : Option connectionInfos
  m_firstTag : Bool
  m_capabilities : List String
  m_capabilitiesFetched : Bool
  m_noModSeq : Bool
  released : List Socket
  deriving DecidableEq

/-- The constructor of `IMAPConnection`. -/
def IMAPConnection.new (store : IMAPStore) (auth : authenticator) : IMAPConnection :=
  { m_store := store, m_auth := auth, m_socket := none, m_parserRef := none, m_tag := none,
    m_hierarchySeparator := Char.ofNat 0, m_state := ProtocolStates.STATE_NONE,
    m_timeoutHandler := none, m_secured := false, m_cntInfos := none, m_firstTag := true,
    m_capabilities := [], m_capabilitiesFetched := false, m_noModSeq := false,
    released := [] }

/-! ## Results and sequencing -/

/-- How a call ends: it returns a value, it throws, or it dereferences a null pointer. -/
inductive Res (α : Type) where
  | ok (a : α)
  | throws (e : Exn)
  | crash
  deriving DecidableEq

/-- A member function: from the state before to the way it ends and the state after. -/
def Op (α : Type) : Type := IMAPConnection → Res α × IMAPConnection

/-- Returns without touching the state. -/
def Op.pure {α : Type} (a : α) : Op α := fun c => (Res.ok a, c)

/-- Sequencing: the second part runs only if the first returned. -/
def Op.bind {α β : Type} (m : Op α) (f : α → Op β) : Op β := fun c =>
  match m c with
  | (Res.ok a, c1) => f a c1
  | (Res.throws e, c1) => (Res.throws e, c1)
  | (Res.crash, c1) => (Res.crash, c1)

instance : Monad Op where
  pure := Op.pure
  bind := Op.bind

/-- Reads the state. -/
def getThis : Op IMAPConnection := fun c => (Res.ok c, c)

/-- Updates the state. -/
def update (f : IMAPConnection → IMAPConnection) : Op Unit := fun c => (Res.ok (), f c)

/-- The statement `throw e`. -/
def throwExn {α : Type} (e : Exn) : Op α := fun c => (Res.throws e, c)

/-- The dereference of a null pointer. -/
def crashNull {α : Type} : Op α := fun c => (Res.crash, c)

/-- The block `try body catch (...) handler`; a crash is not an exception. -/
def tryCatch {α : Type} (body : Op α) (handler : Exn → Op α) : Op α := fun c =>
  match body c with
  | (Res.throws e, c1) => handler e c1
  | r => r

/-! ## Member functions -/

/-- The function `IMAPConnection::isConnected`. -/
def isConnected (c : IMAPConnection) : Bool :=
  match c.m_socket with
  | none => false
  | some s => s.connected &&
      (c.m_state == ProtocolStates.STATE_AUTHENTICATED ||
       c.m_state == ProtocolStates.STATE_SELECTED)

/-- The function `IMAPConnection::isSecuredConnection`. -/
def isSecuredConnection (c : IMAPConnection) : Bool := c.m_secured

/-- The function `IMAPConnection::getConnectionInfos`. -/
def getConnectionInfos (c : IMAPConnection) : Option connectionInfos := c.m_cntInfos

/-- The function `IMAPConnection::setState`. -/
def setState (state : ProtocolStates) : Op Unit :=
  update fun c => { c with m_state := state }

/-- The call `m_socket->send(command)`. -/
def socketSend (command : String) : Op Unit := fun c =>
  match c.m_socket with
  | none => (Res.crash, c)
  | some s =>
    match s.send command with
    | .ok s1 => (Res.ok (), { c with m_socket := some s1 })
    | .error e => (Res.throws e, c)

/-- The function `IMAPConnection::send` (the trace argument only feeds the trace output
and is left out). -/
def send (tag : Bool) (what : String) (end_ : Bool) : Op Unit := do
  let c ← getThis
  if tag && !c.m_firstTag then
    match c.m_tag with
    | none => crashNull
    | some t => update fun c => { c with m_tag := some t.increment }
  let c ← getThis
  let command ←
    if tag then
      match c.m_tag with
      | none => crashNull
      | some t => pure (t.render ++ " ")
    else pure ""
  let command := command ++ what
  let command := if end_ then command ++ "\r\n" else command
  socketSend command
  if tag then
    update fun c => { c with m_firstTag := false }

/-- Modelled from the spec: `IMAPParser::readResponse`; the next scripted event is
consumed. A closed stream (no event left) raises a socket exception, a greeting where a
response is expected is a syntax error. -/
def readResponse : Op response := fun c =>
  match c.m_parserRef with
  | none => (Res.crash, c)
  | some p =>
    match p.script with
    | [] => (Res.throws Exn.socket_exception, c)
    | ParserEvent.response r :: rest =>
      (Res.ok r, { c with m_parserRef := some { p with script := rest } })
    | ParserEvent.greeting _ :: rest =>
      (Res.throws Exn.invalid_response, { c with m_parserRef := some { p with script := rest } })
    | ParserEvent.failure e :: rest =>
      (Res.throws e, { c with m_parserRef := some { p with script := rest } })

/-- Modelled from the spec: `IMAPParser::readGreeting`. -/
def readGreeting : Op greeting := fun c =>
  match c.m_parserRef with
  | none => (Res.crash, c)
  | some p =>
    match p.script with
    | [] => (Res.throws Exn.socket_exception, c)
    | ParserEvent.greeting g :: rest =>
      (Res.ok g, { c with m_parserRef := some { p with script := rest } })
    | ParserEvent.response _ :: rest =>
      (Res.throws Exn.invalid_response, { c with m_parserRef := some { p with script := rest } })
    | ParserEvent.failure e :: rest =>
      (Res.throws e, { c with m_parserRef := some { p with script := rest } })

/-- The expression `resp->response_done()->response_tagged()->resp_cond_state()`. -/
def taggedState (resp : response) : Op resp_cond_state :=
  match resp.response_done with
  | some (response_done.response_tagged st) => pure st
  | _ => crashNull

/-- The condition `resp->isBad() || resp->response_done()->response_tagged()->
resp_cond_state()->status() != OK`, evaluated left to right. -/
def isBadOrNotOK (resp : response) : Op Bool := do
  if resp.isBad then pure true
  else
    let st ← taggedState resp
    pure (st.status != Status.OK)

/-- The function `IMAPConnection::invalidateCapabilities`. -/
def invalidateCapabilities : Op Unit :=
  update fun c => { c with m_capabilities := [], m_capabilitiesFetched := false }

/-- The string pushed for one `capability` node in `processCapabilityResponseData`. -/
def capabilityString : capability → String
  | capability.auth_type name => "AUTH=" ++ name
  | capability.atom value => toUpper value

/-- The function `IMAPConnection::processCapabilityResponseData(const capability_data*)`. -/
def processCapabilityData (capaData : capability_data) : Op Unit :=
  update fun c => { c with
    m_capabilities := capaData.capabilities.map capabilityString,
    m_capabilitiesFetched := true }

/-- The loop of `IMAPConnection::processCapabilityResponseData(const response*)`. -/
def processCapabilityResponseDataLoop : List continue_req_or_response_data → Op Bool
  | [] => pure false
  | continue_req_or_response_data.response_data (response_data.capability_data capaData) :: _ => do
    processCapabilityData capaData
    pure true
  | _ :: rest => processCapabilityResponseDataLoop rest

/-- The function `IMAPConnection::processCapabilityResponseData(const response*)`. -/
def processCapabilityResponseData (resp : response) : Op Bool :=
  processCapabilityResponseDataLoop resp.continue_req_or_response_data

/-- The function `IMAPConnection::fetchCapabilities`. -/
def fetchCapabilities : Op Unit := do
  send true "CAPABILITY" true
  let resp ← readResponse
  let st ← taggedState resp
  if st.status == Status.OK then
    let _ ← processCapabilityResponseData resp
    pure ()

/-- The function `IMAPConnection::getCapabilities`. -/
def getCapabilities : Op (List String) := do
  let c ← getThis
  if !c.m_capabilitiesFetched then
    fetchCapabilities
  let c ← getThis
  pure c.m_capabilities

/-- The search loop of `hasCapability`: some element equals `normCapa`. -/
def containsCapability (normCapa : String) : List String → Bool
  | [] => false
  | x :: rest => if x = normCapa then true else containsCapability normCapa rest

/-- The function `IMAPConnection::hasCapability`. -/
def hasCapability (capa : String) : Op Bool := do
  let c ← getThis
  if !c.m_capabilitiesFetched then
    fetchCapabilities
  let normCapa := toUpper capa
  let c ← getThis
  pure (containsCapability normCapa c.m_capabilities)

/-- The released socket objects once `m_socket` is cleared or assigned anew: the
object it pointed to, if any, joins those released before. -/
def releasedAfterDrop (c : IMAPConnection) : List Socket :=
  match c.m_socket with
  | none => c.released
  | some s => c.released ++ [s]

/-- The first two statements of the `if` block of `internalDisconnect`: `LOGOUT` is
sent and the socket is closed (`m_socket->disconnect()`). -/
def sendLogoutAndClose : Op Unit := do
  send true "LOGOUT" true
  update fun c => { c with m_socket := c.m_socket.map Socket.disconnect }

/-- The function `IMAPConnection::internalDisconnect`. -/
def internalDisconnect : Op Unit := do
  let c ← getThis
  if isConnected c then
    sendLogoutAndClose
    update fun c => { c with released := releasedAfterDrop c, m_socket := none }
  update fun c => { c with m_timeoutHandler := none }
  update fun c => { c with m_state := ProtocolStates.STATE_LOGOUT }
  update fun c => { c with m_secured := false }
  update fun c => { c with m_cntInfos := none }

/-- The function `IMAPConnection::disconnect`. -/
def disconnect : Op Unit := do
  let c ← getThis
  if !isConnected c then
    pure ()
  else
    internalDisconnect

/-- The scan loop of `initHierarchySeparator`; returns the flag `found`. -/
def initHierarchySeparatorLoop : List continue_req_or_response_data → Op Bool
  | [] => pure false
  | continue_req_or_response_data.response_data
      (response_data.mailbox_data (mailbox_data.LIST list)) :: rest =>
    if list.quoted_char != Char.ofNat 0 then do
      update fun c => { c with m_hierarchySeparator := list.quoted_char }
      pure true
    else initHierarchySeparatorLoop rest
  | _ :: rest => initHierarchySeparatorLoop rest

/-- The function `IMAPConnection::initHierarchySeparator`. -/
def initHierarchySeparator : Op Unit := do
  send true "LIST \"\" \"\"" true
  let resp ← readResponse
  if ← isBadOrNotOK resp then
    internalDisconnect
    throwExn (Exn.command_error "LIST")
  let found ← initHierarchySeparatorLoop resp.continue_req_or_response_data
  if !found then
    update fun c => { c with m_hierarchySeparator := '/' }

/-- Modelled from the spec: `TLSSocket::handshake`. -/
def Socket.handshake (s : Socket) : Except Exn Socket :=
  if s.handshakes then .ok s else .error Exn.tls_exception

/-- The statements of `IMAPConnection::startTLS` that follow the check of the
response: the TLS socket is created over the current one, shakes hands, and replaces the
transport of the connection and of the parser. -/
def startTLSUpgrade : Op Unit := do
  let c ← getThis
  match c.m_socket with
  | none => crashNull
  | some s =>
    match s.wrap.handshake with
    | .error e => throwExn e
    | .ok tlsSocket =>
      update fun c => { c with m_socket := some tlsSocket }
      let c ← getThis
      match c.m_parserRef with
      | none => crashNull
      | some p =>
        update fun c => { c with m_parserRef := some { p with socket := tlsSocket.id } }
        update fun c => { c with m_secured := true }
        let c ← getThis
        match c.m_cntInfos with
        | none => crashNull
        | some infos =>
          update fun c => { c with
            m_cntInfos := some { host := infos.host, port := infos.port, secured := true } }
          invalidateCapabilities

/-- The body of the `try` block of `IMAPConnection::startTLS`. -/
def startTLSBody : Op Unit := do
  send true "STARTTLS" true
  let resp ← readResponse
  if ← isBadOrNotOK resp then
    throwExn (Exn.command_error "STARTTLS")
  startTLSUpgrade

/-- The function `IMAPConnection::startTLS`: a command error is rethrown as it is, any
other exception disconnects first. -/
def startTLS : Op Unit :=
  tryCatch startTLSBody fun e =>
    match e with
    | Exn.command_error _ => throwExn e
    | _ => do
      internalDisconnect
      throwExn e

/-- Modelled from the spec: `IMAPUtils::quoteString` (IMAPUtils is not part of the
translated sources): the text between double quotes, with a backslash before every
backslash and double quote. -/
def quoteString (text : String) : String :=
  ⟨'"' :: (text.data.foldr
    (fun ch acc => if ch = '\\' ∨ ch = '"' then '\\' :: ch :: acc else ch :: acc) ['"'])⟩

/-- Modelled from the spec: a SASL mechanism as the SASL library implements it (§4.5.5):
its name, the response it computes for each challenge it accepts (any other challenge
makes it raise a SASL exception with the text `rejection`), and whether it negotiates a
security layer. -/
structure SASLMechanism where
  name : String
  replies : List (String × String)
  rejection : String
  securityLayer : Bool
  deriving DecidableEq

/-- Modelled from the spec: the SASL context: the mechanisms the library implements and
the order in which it suggests them. -/
structure SASLContext where
  implemented : List SASLMechanism
  preference : List String
  deriving DecidableEq

/-- Modelled from the spec: `SASLContext::createMechanism`; `none` stands for the
exception `no_such_mechanism`. -/
def SASLContext.createMechanism (ctx : SASLContext) (name : String) : Option SASLMechanism :=
  ctx.implemented.find? fun m => toUpper m.name == toUpper name

/-- Modelled from the spec: `SASLContext::suggestMechanism`; `none` is the null
reference. -/
def SASLContext.suggestMechanism (ctx : SASLContext) (mechs : List SASLMechanism) :
    Option SASLMechanism :=
  (ctx.preference.filterMap fun n => mechs.find? fun m => m.name == n).head?

/-- Modelled from the spec: `SASLAuthenticator::getAcceptableMechanisms`: the
suggested mechanism first, then the other available ones, restricted to the names the
authenticator accepts. -/
def authenticator.getAcceptableMechanisms (auth : authenticator)
    (available : List SASLMechanism) (suggested : SASLMechanism) : List SASLMechanism :=
  (suggested :: available.filter fun m => m.name != suggested.name).filter
    fun m => auth.acceptable.contains m.name

/-- Modelled from the spec: `SASLSession::getSecuredSocket`: the wrapper of a
mechanism that negotiates a security layer, else the socket itself. -/
def SASLMechanism.getSecuredSocket (mech : SASLMechanism) (s : Socket) : Socket :=
  if mech.securityLayer then s.wrap else s

/-- The statement `m_socket = saslSession->getSecuredSocket(m_socket)` of
`authenticateSASL`. -/
def installSecuredSocket (mech : SASLMechanism) : Op Unit :=
  update fun c => { c with m_socket := c.m_socket.map mech.getSecuredSocket }

/-- The test of `authenticateSASL` on one capability: longer than five characters and
starting with `AUTH=` in any letter case. -/
def isAuthCapability (x : String) : Bool :=
  match x.data with
  | c0 :: c1 :: c2 :: c3 :: c4 :: _ :: _ =>
    (c0 == 'A' || c0 == 'a') && (c1 == 'U' || c1 == 'u') && (c2 == 'T' || c2 == 't') &&
    (c3 == 'H' || c3 == 'h') && c4 == '='
  | _ => false

/-- The first loop of `authenticateSASL`: the mechanism names of the capability list. -/
def saslMechsOf (capa : List String) : List String :=
  (capa.filter isAuthCapability).map fun x => ⟨x.data.drop 5⟩

/-- The scan of `authenticateSASL` for the first continuation request of a response. -/
def firstContinueReq : List continue_req_or_response_data → Option String
  | [] => none
  | continue_req_or_response_data.continue_req text :: _ => some text.text
  | _ :: rest => firstContinueReq rest

/-- The test of `authenticateSASL` for a response that ends in tagged `OK`. -/
def response.isTaggedOK (resp : response) : Bool :=
  match resp.response_done with
  | some (response_done.response_tagged st) => st.status == Status.OK
  | _ => false

/-- The `try` block of the inner loop of `authenticateSASL` with its handlers: the
challenge is decoded and evaluated, the response is sent untagged and the capabilities
are invalidated; on a SASL exception its text is appended to the error text and the
exchange is cancelled with `*`; any other exception is rethrown. Returns the error
text accumulated so far. -/
def answerChallenge (mech : SASLMechanism) (challenge s_Error : String) : Op String :=
  tryCatch
    (do
      match mech.replies.lookup challenge with
      | none => throwExn (Exn.sasl_exception mech.rejection)
      | some reply =>
        send false reply true
        invalidateCapabilities
        pure s_Error)
    (fun e =>
      match e with
      | Exn.sasl_exception what => do
        send false "*" true
        pure (s_Error ++ "\n" ++ what)
      | _ => throwExn e)

/-- The inner loop of `authenticateSASL` for one mechanism. It returns `none` when the
server answered tagged `OK` (the function returns) and the accumulated error text when
the exchange ended without success (the next mechanism is tried). Every round reads one
scripted event; the first argument bounds the number of rounds, and the caller passes
the length of the script plus one. -/
def authenticateSASLExchange (mech : SASLMechanism) : Nat → String → Op (Option String)
  | 0, _ => crashNull
  | fuel + 1, s_Error => do
    let resp ← readResponse
    if resp.isTaggedOK then
      installSecuredSocket mech
      pure none
    else
      match firstContinueReq resp.continue_req_or_response_data with
      | none =>
        let st ← taggedState resp
        pure (some (s_Error ++ "\nSASL " ++ mech.name ++ ": " ++ st.resp_text.text))
      | some challenge =>
        let s_Error1 ← answerChallenge mech challenge s_Error
        authenticateSASLExchange mech fuel s_Error1

/-- The number of events the server will still deliver to the parser. -/
def pendingEvents (c : IMAPConnection) : Nat :=
  match c.m_parserRef with
  | none => 0
  | some p => p.script.length

/-- The loop of `authenticateSASL` over the mechanisms; returns `none` when one of them
authenticated and the accumulated error text when all failed. -/
def authenticateSASLLoop : List SASLMechanism → String → Op (Option String)
  | [], s_Error => pure (some s_Error)
  | mech :: rest, s_Error => do
    send true ("AUTHENTICATE " ++ mech.name) true
    let c ← getThis
    match ← authenticateSASLExchange mech (pendingEvents c + 1) s_Error with
    | none => pure none
    | some s_Error1 => authenticateSASLLoop rest s_Error1

/-- The function `IMAPConnection::authenticateSASL`. -/
def authenticateSASL (saslContext : SASLContext) : Op Unit := do
  let c ← getThis
  if !c.m_auth.isSASL then
    throwExn (Exn.authentication_error "No SASL authenticator available.")
  let capa ← getCapabilities
  let saslMechs := saslMechsOf capa
  if saslMechs.isEmpty then
    throwExn (Exn.authentication_error "The server does not support any SASL mechanism.")
  let mechList := saslMechs.filterMap saslContext.createMechanism
  if mechList.isEmpty then
    throwExn (Exn.authentication_error
      "The server does not support any of the implemented SASL mechanisms.")
  match saslContext.suggestMechanism mechList with
  | none => throwExn (Exn.authentication_error "Unable to suggest SASL mechanism.")
  | some suggestedMech =>
    let mechList := c.m_auth.getAcceptableMechanisms mechList suggestedMech
    if mechList.isEmpty then
      throwExn (Exn.authentication_error "No SASL mechanism available.")
    match ← authenticateSASLLoop mechList "" with
    | none => pure ()
    | some s_Error => throwExn (Exn.authentication_error s_Error)

/-- The SASL part of `IMAPConnection::authenticate`: `none` when SASL authenticated
(the function returns), else the error text `s_Error` the LOGIN part starts with. -/
def authenticateSASLPhase (saslContext : SASLContext) : Op (Option String) := do
  let c ← getThis
  if c.m_store.options_sasl then
    tryCatch
      (do
        authenticateSASL saslContext
        pure none)
      (fun e =>
        match e with
        | Exn.authentication_error resp =>
          if !c.m_store.options_sasl_fallback then do
            internalDisconnect
            throwExn e
          else do
            let s_Error := resp ++ "\n"
            let c ← getThis
            match c.m_socket with
            | none => crashNull
            | some s =>
              if !s.connected then
                internalDisconnect
                throwExn (Exn.authentication_error (s_Error ++ "The server has disconnected."))
              pure (some s_Error)
        | _ => do
          internalDisconnect
          throwExn Exn.exception)
  else pure (some "")

/-- The LOGIN part of `IMAPConnection::authenticate` ("Normal authentication"), which
starts with the error text `s_Error` the SASL part left. -/
def authenticateLogin (s_Error : String) : Op Unit := do
  let c ← getThis
  let username := c.m_auth.username
  let password := c.m_auth.password
  send true ("LOGIN " ++ quoteString username ++ " " ++ quoteString password) true
  let resp ← readResponse
  if resp.isBad then
    internalDisconnect
    throwExn (Exn.command_error "LOGIN")
  let state ← taggedState resp
  if state.status != Status.OK then
    internalDisconnect
    throwExn (Exn.authentication_error (s_Error ++ "LOGIN: " ++ state.resp_text.text))
  if !(← processCapabilityResponseData resp) then
    invalidateCapabilities

/-- The function `IMAPConnection::authenticate`. -/
def authenticate (saslContext : SASLContext) : Op Unit := do
  match ← authenticateSASLPhase saslContext with
  | none => pure ()
  | some s_Error => authenticateLogin s_Error

/-- What the outside world supplies to one call of `connect`: the socket the store's
socket factory creates, what the server will make the parser deliver, and the SASL
library. -/
structure Network where
  socket : Socket
  script : List ParserEvent
  sasl : SASLContext
  deriving DecidableEq

/-- The call `m_socket->connect(address, port)`. -/
def socketConnect : Op Unit := fun c =>
  match c.m_socket with
  | none => (Res.crash, c)
  | some s =>
    match s.connect with
    | .ok s1 => (Res.ok (), { c with m_socket := some s1 })
    | .error e => (Res.throws e, c)

/-- The function `IMAPConnection::connect`. -/
def connect (net : Network) : Op Unit := do
  let c ← getThis
  if isConnected c then
    throwExn Exn.already_connected
  update fun c => { c with m_state := ProtocolStates.STATE_NONE }
  update fun c => { c with m_hierarchySeparator := Char.ofNat 0 }
  let store := c.m_store
  let address := store.server_address
  let port := store.server_port
  if store.timeoutHandlerFactory then
    update fun c => { c with m_timeoutHandler := some () }
  update fun c => { c with released := releasedAfterDrop c, m_socket := some net.socket }
  if store.isIMAPS then
    update fun c => { c with m_socket := some net.socket.wrap }
    update fun c => { c with m_secured := true }
    update fun c => { c with
      m_cntInfos := some { host := address, port := port, secured := true } }
  else
    update fun c => { c with
      m_cntInfos := some { host := address, port := port, secured := false } }
  socketConnect
  update fun c => { c with m_tag := some IMAPTag.initial }
  update fun c => { c with
    m_parserRef := some { socket := (c.m_socket.map Socket.id).getD 0, script := net.script } }
  setState ProtocolStates.STATE_NON_AUTHENTICATED
  let greet ← readGreeting
  match greet with
  | greeting.resp_cond_bye _ =>
    internalDisconnect
    throwExn Exn.connection_greeting_error
  | greeting.resp_cond_auth condition text =>
    let needAuth := condition != AuthCondition.PREAUTH
    match text.resp_text_code with
    | some code =>
      match code.capability_data with
      | some capaData => processCapabilityData capaData
      | none => pure ()
    | none => pure ()
    let tls := store.connection_tls == some true
    let tlsRequired := store.connection_tls_required == some true
    if !store.isIMAPS && tls then
      tryCatch startTLS fun e =>
        match e with
        | Exn.command_error _ =>
          if tlsRequired then do
            update fun c => { c with m_state := ProtocolStates.STATE_NONE }
            throwExn e
          else pure ()
        | _ => do
          update fun c => { c with m_state := ProtocolStates.STATE_NONE }
          throwExn e
    if needAuth then
      tryCatch (authenticate net.sasl) fun e => do
        update fun c => { c with m_state := ProtocolStates.STATE_NONE }
        throwExn e
    initHierarchySeparator
    setState ProtocolStates.STATE_AUTHENTICATED

/-! ## Vocabulary of the properties -/

/-- The line terminator `send` appends when its argument `end` is true. -/
def lineEnd (end_ : Bool) : String := if end_ then "\r\n" else ""

/-- What the engine does between two tagged commands: an untagged send, the read of a
response, the replacement of the transport by STARTTLS, the replacement of the transport
by a SASL mechanism. -/
inductive Between where
  | untaggedSend (what : String) (end_ : Bool)
  | read
  | startTLS
  | sasl (mech : SASLMechanism)
  deriving DecidableEq

/-- The state after one step between two tagged commands, however the step ends. -/
def Between.run : Between → IMAPConnection → IMAPConnection
  | Between.untaggedSend what end_, c => (send false what end_ c).2
  | Between.read, c => (readResponse c).2
  | Between.startTLS, c => (startTLSUpgrade c).2
  | Between.sasl mech, c => (installSecuredSocket mech c).2

/-- The state after a sequence of steps between two tagged commands. -/
def runBetween : List Between → IMAPConnection → IMAPConnection
  | [], c => c
  | op :: ops, c => runBetween ops (op.run c)

/-- The socket after one more line was written to it. -/
def Socket.log (s : Socket) (line : String) : Socket := { s with sent := s.sent ++ [line] }

/-- The last line written to the current transport. -/
def lastSent (c : IMAPConnection) : Option String :=
  match c.m_socket with
  | none => none
  | some s => s.sent.getLast?

/-- The capability-data nodes among the untagged items of a response, in arrival
order. -/
def untaggedCapabilityData (resp : response) : List capability_data :=
  resp.continue_req_or_response_data.filterMap fun item =>
    match item with
    | continue_req_or_response_data.response_data (response_data.capability_data d) => some d
    | _ => none

/-- The capability-data of the `CAPABILITY` response-text-code of the tagged status of
a response, if it has one. -/
def taggedCapabilityData (resp : response) : Option capability_data :=
  match resp.response_done with
  | some (response_done.response_tagged st) =>
    match st.resp_text.resp_text_code with
    | some code => code.capability_data
    | none => none
  | _ => none

/-- The test the specification words for `ingest`: the response contains a
capability-data node, as an untagged item or as the response-text-code of its tagged
status. -/
def containsCapabilityData (resp : response) : Bool :=
  !(untaggedCapabilityData resp).isEmpty || (taggedCapabilityData resp).isSome

/-- The cache after the capability list `capaData` was ingested. -/
def withCapabilities (c : IMAPConnection) (capaData : capability_data) : IMAPConnection :=
  { c with
    m_capabilities := capaData.capabilities.map capabilityString,
    m_capabilitiesFetched := true }

/-- A plain socket that is open and accepts writes. -/
def openSocket : Socket :=
  { id := 0, layers := 0, reachable := true, handshakes := true, accepts := true,
    connected := true, sent := [] }

/-- A store without TLS and without SASL. -/
def plainStore : IMAPStore :=
  { server_address := "imap.example.org", server_port := 143, isIMAPS := false,
    timeoutHandlerFactory := true, connection_tls := none, connection_tls_required := none,
    options_sasl := false, options_sasl_fallback := false }

/-- An authenticator with a user name and a password. -/
def plainAuth : authenticator :=
  { username := "alice", password := "s3cret", isSASL := false, acceptable := [] }

/-- A response text without response code. -/
def plainText (text : String) : resp_text := { resp_text_code := none, text := text }

/-- A response that ends in tagged `OK`, with the given untagged items. -/
def okResponse (items : List continue_req_or_response_data) : response :=
  { continue_req_or_response_data := items,
    response_done := some (response_done.response_tagged
      { status := Status.OK, resp_text := plainText "completed" }) }

/-- A connection in the middle of a session: open transport, parser with the given
script, the protocol state given, no tagged command sent yet. -/
def sessionWith (state : ProtocolStates) (script : List ParserEvent) : IMAPConnection :=
  { IMAPConnection.new plainStore plainAuth with
    m_socket := some openSocket,
    m_parserRef := some { socket := 0, script := script },
    m_tag := some IMAPTag.initial,
    m_state := state,
    m_timeoutHandler := some (),
    m_cntInfos := some { host := "imap.example.org", port := 143, secured := false } }

/-- The socket the socket factory creates: not yet open. -/
def freshSocket : Socket := { openSocket with connected := false }

/-- A server that greets with `PREAUTH` and answers `LIST` with one mailbox whose
delimiter is a dot. -/
def preauthNetwork : Network :=
  { socket := freshSocket,
    script :=
      [ParserEvent.greeting (greeting.resp_cond_auth AuthCondition.PREAUTH (plainText "ready")),
       ParserEvent.response (okResponse
         [continue_req_or_response_data.response_data
           (response_data.mailbox_data (mailbox_data.LIST { quoted_char := '.' }))])],
    sasl := { implemented := [], preference := [] } }

/-- The call of `connect` on a connection object that was just constructed. -/
def firstConnect : Res Unit × IMAPConnection :=
  connect preauthNetwork (IMAPConnection.new plainStore plainAuth)

/-- The call of `connect` that follows `connect` and `disconnect` on the same object. -/
def secondConnect : Res Unit × IMAPConnection :=
  connect preauthNetwork (disconnect firstConnect.2).2

/-- A server that greets with `OK`, accepts `LOGIN`, answers `LIST` with one mailbox
whose delimiter is a slash, and then delivers the events `later`. -/
def loginNetwork (later : List ParserEvent) : Network :=
  { socket := freshSocket,
    script :=
      [ParserEvent.greeting (greeting.resp_cond_auth AuthCondition.OK (plainText "ready")),
       ParserEvent.response (okResponse []),
       ParserEvent.response (okResponse
         [continue_req_or_response_data.response_data
           (response_data.mailbox_data (mailbox_data.LIST { quoted_char := '/' }))])] ++ later,
    sasl := { implemented := [], preference := [] } }

/-- The connection after `connect()` returned against `loginNetwork later`: state
Authenticated, `LOGIN` and `LIST` sent as `a001` and `a002`. -/
def authenticatedSession (later : List ParserEvent) : IMAPConnection :=
  (connect (loginNetwork later) (IMAPConnection.new plainStore plainAuth)).2

/-- An authenticated session whose network no longer accepts writes. -/
def brokenSession : IMAPConnection :=
  { authenticatedSession [] with
    m_socket := (authenticatedSession []).m_socket.map fun s => { s with accepts := false } }

/-- The lines written to the current transport. -/
def sentLines (c : IMAPConnection) : List String :=
  match c.m_socket with
  | none => []
  | some s => s.sent

/-- The delimiters of the `LIST` items of a response whose quoted-char is not NUL, in
arrival order. -/
def listDelimiters (resp : response) : List Char :=
  resp.continue_req_or_response_data.filterMap fun item =>
    match item with
    | continue_req_or_response_data.response_data
        (response_data.mailbox_data (mailbox_data.LIST list)) =>
      if list.quoted_char = Char.ofNat 0 then none else some list.quoted_char
    | _ => none

/-- The separator the specification words: the first such delimiter, else a slash. -/
def expectedSeparator (resp : response) : Char := (listDelimiters resp).head?.getD '/'

/-- A response to `LIST` with a continuation request, a `FLAGS` item, an `LSUB` item, a
`LIST` item whose delimiter is NUL, and two `LIST` items with delimiters dot and slash. -/
def mixedListResponse : response :=
  okResponse
    [continue_req_or_response_data.continue_req (plainText "go on"),
     continue_req_or_response_data.response_data (response_data.mailbox_data mailbox_data.FLAGS),
     continue_req_or_response_data.response_data
       (response_data.mailbox_data (mailbox_data.LSUB { quoted_char := ':' })),
     continue_req_or_response_data.response_data
       (response_data.mailbox_data (mailbox_data.LIST { quoted_char := Char.ofNat 0 })),
     continue_req_or_response_data.response_data
       (response_data.mailbox_data (mailbox_data.LIST { quoted_char := '.' })),
     continue_req_or_response_data.response_data
       (response_data.mailbox_data (mailbox_data.LIST { quoted_char := '/' }))]

/-- An authenticated session whose cache was filled from a capability list in which the
parser delivered the SASL mechanism name in lower case. -/
def lowercaseAuthCache : IMAPConnection :=
  (processCapabilityData
    { capabilities := [capability.atom "imap4rev1", capability.auth_type "plain"] }
    (authenticatedSession [])).2

/-- A response that ends in tagged `OK [CAPABILITY IMAP4rev1 IDLE]` and has no untagged
item. -/
def okWithCapabilityCode : response :=
  { continue_req_or_response_data := [],
    response_done := some (response_done.response_tagged
      { status := Status.OK,
        resp_text :=
          { resp_text_code := some (resp_text_code.mk (some (capability_data.mk
              [capability.atom "IMAP4rev1", capability.atom "IDLE"]))),
            text := "Logged in" } }) }

/-- The `LOGIN` command `authenticate` writes for the credentials of the connection. -/
def loginCommand (c : IMAPConnection) : String :=
  "LOGIN " ++ quoteString c.m_auth.username ++ " " ++ quoteString c.m_auth.password

/-- The cache after `invalidateCapabilities`. -/
def withoutCapabilities (c : IMAPConnection) : IMAPConnection :=
  { c with m_capabilities := [], m_capabilitiesFetched := false }

/-- A response that ends in the tagged status given, with the text given and no
untagged item. -/
def statusResponse (status : Status) (text : String) : response :=
  { continue_req_or_response_data := [],
    response_done := some (response_done.response_tagged
      { status := status, resp_text := plainText text }) }

/-- The identity of the parser's byte source. -/
def parserSource (c : IMAPConnection) : Option Nat := c.m_parserRef.map IMAPParser.socket

/-- The identity of the connection's current transport. -/
def transportId (c : IMAPConnection) : Option Nat := c.m_socket.map Socket.id

/-- A store that asks for STARTTLS and requires it. -/
def tlsRequiredStore : IMAPStore :=
  { plainStore with connection_tls := some true, connection_tls_required := some true }

/-- A server that greets with `OK` and answers `STARTTLS` with tagged `BAD`; what it
would answer to a later command is left in the script. -/
def starttlsRefusedNetwork : Network :=
  { socket := freshSocket,
    script :=
      [ParserEvent.greeting (greeting.resp_cond_auth AuthCondition.OK (plainText "ready")),
       ParserEvent.response (statusResponse Status.BAD "not supported"),
       ParserEvent.response (okResponse [])],
    sasl := { implemented := [], preference := [] } }

/-- The call of `connect` with STARTTLS required against a server that refuses it. -/
def starttlsRefusedConnect : Res Unit × IMAPConnection :=
  connect starttlsRefusedNetwork (IMAPConnection.new tlsRequiredStore plainAuth)

/-- A SASL mechanism that answers one challenge and negotiates a security layer. -/
def layeredMechanism : SASLMechanism :=
  { name := "DIGEST-MD5", replies := [("Y2hhbGxlbmdl", "cmVzcG9uc2U=")],
    rejection := "challenge rejected", securityLayer := true }

/-- A store with SASL authentication and LOGIN as fallback. -/
def saslStore : IMAPStore :=
  { plainStore with options_sasl := true, options_sasl_fallback := true }

/-- A SASL authenticator that accepts `DIGEST-MD5`. -/
def saslAuth : authenticator :=
  { plainAuth with isSASL := true, acceptable := ["DIGEST-MD5"] }

/-- A server that advertises `AUTH=DIGEST-MD5` in its greeting, sends one challenge to
`AUTHENTICATE`, accepts the response with tagged `OK`, and answers `LIST`. -/
def saslNetwork : Network :=
  { socket := freshSocket,
    script :=
      [ParserEvent.greeting (greeting.resp_cond_auth AuthCondition.OK
         { resp_text_code := some (resp_text_code.mk (some (capability_data.mk
             [capability.atom "IMAP4rev1", capability.auth_type "DIGEST-MD5"]))),
           text := "ready" }),
       ParserEvent.response
         { continue_req_or_response_data :=
             [continue_req_or_response_data.continue_req (plainText "Y2hhbGxlbmdl")],
           response_done := none },
       ParserEvent.response (okResponse []),
       ParserEvent.response (okResponse
         [continue_req_or_response_data.response_data
           (response_data.mailbox_data (mailbox_data.LIST { quoted_char := '/' }))])],
    sasl := { implemented := [layeredMechanism], preference := ["DIGEST-MD5"] } }

/-- The call of `connect` with SASL against `saslNetwork`. -/
def saslConnect : Res Unit × IMAPConnection :=
  connect saslNetwork (IMAPConnection.new saslStore saslAuth)

/-- A server that rejects `AUTHENTICATE` and then `LOGIN`, each with tagged `NO`. -/
def rejectingNetwork : Network :=
  { saslNetwork with
    script :=
      [ParserEvent.greeting (greeting.resp_cond_auth AuthCondition.OK
         { resp_text_code := some (resp_text_code.mk (some (capability_data.mk
             [capability.atom "IMAP4rev1", capability.auth_type "DIGEST-MD5"]))),
           text := "ready" }),
       ParserEvent.response (statusResponse Status.NO "mechanism failed"),
       ParserEvent.response (statusResponse Status.NO "invalid credentials")] }

/-! ## Properties -/

/-! ### Evaluation lemmas -/

theorem send_eq (tag : Bool) (what : String) (end_ : Bool) (c : IMAPConnection) :
    send tag what end_ c =
      if tag then
        match c.m_tag with
        | none => (Res.crash, c)
        | some t0 =>
          let t := if c.m_firstTag then t0 else t0.increment
          match c.m_socket with
          | none => (Res.crash, { c with m_tag := some t })
          | some s =>
            if s.connected && s.accepts then
              (Res.ok (), { c with m_tag := some t, m_firstTag := false, m_socket := some (s.log (t.render ++ " " ++ what ++ lineEnd end_)) })
            else (Res.throws Exn.socket_exception, { c with m_tag := some t })
      else
        match c.m_socket with
        | none => (Res.crash, c)
        | some s =>
          if s.connected && s.accepts then
            (Res.ok (), { c with m_socket := some (s.log ("" ++ what ++ lineEnd end_)) })
          else (Res.throws Exn.socket_exception, c) := by
  unfold send
  rcases c with ⟨st, au, so, pa, tg, hsep, state, th, sec, ci, ft, caps, cf, nm, rel⟩
  cases so with
  | none =>
    cases tag <;> cases ft <;> cases tg <;> cases end_ <;>
      simp [bind, Op.bind, getThis, pure, Op.pure, update, crashNull, socketSend]
  | some s =>
    cases hc : s.connected <;> cases ha : s.accepts <;>
      cases tag <;> cases ft <;> cases tg <;> cases end_ <;>
      simp [bind, Op.bind, getThis, pure, Op.pure, update, crashNull, socketSend, Socket.send,
        lineEnd, hc, ha, Socket.log]

theorem send_tagged_ok (what : String) (end_ : Bool) (c c1 : IMAPConnection)
    (h : send true what end_ c = (Res.ok (), c1)) :
    ∃ t0 s, c.m_tag = some t0 ∧ c.m_socket = some s ∧ s.connected = true ∧ s.accepts = true ∧
      c1 = { c with
        m_tag := some (if c.m_firstTag then t0 else t0.increment),
        m_firstTag := false,
        m_socket := some (s.log ((if c.m_firstTag then t0 else t0.increment).render ++ " " ++
          what ++ lineEnd end_)) } := by
  rw [send_eq] at h
  rcases c with ⟨st, au, so, pa, tg, hsep, state, th, sec, ci, ft, caps, cf, nm, rel⟩
  cases tg with
  | none => simp at h
  | some t0 =>
    cases so with
    | none => simp at h
    | some s =>
      cases hc : s.connected <;> cases ha : s.accepts <;> simp [hc, ha] at h
      exact ⟨t0, s, rfl, rfl, hc, ha, h.symm⟩

theorem send_untagged_tag (what : String) (end_ : Bool) (c : IMAPConnection) :
    (send false what end_ c).2.m_tag = c.m_tag ∧
    (send false what end_ c).2.m_firstTag = c.m_firstTag := by
  rw [send_eq]
  cases hs : c.m_socket with
  | none => simp
  | some s => cases hc : s.connected <;> cases ha : s.accepts <;> simp [hc, ha]

theorem readResponse_tag (c : IMAPConnection) :
    (readResponse c).2.m_tag = c.m_tag ∧ (readResponse c).2.m_firstTag = c.m_firstTag := by
  unfold readResponse
  cases hp : c.m_parserRef with
  | none => simp
  | some p =>
    cases hscript : p.script with
    | nil => simp [hscript]
    | cons ev rest => cases ev <;> simp [hscript]

theorem startTLSUpgrade_tag (c : IMAPConnection) :
    (startTLSUpgrade c).2.m_tag = c.m_tag ∧
    (startTLSUpgrade c).2.m_firstTag = c.m_firstTag := by
  unfold startTLSUpgrade
  rcases c with ⟨st, au, so, pa, tg, hsep, state, th, sec, ci, ft, caps, cf, nm, rel⟩
  cases so with
  | none => simp [bind, Op.bind, getThis, crashNull]
  | some s =>
    cases hh : s.handshakes <;> cases pa <;> cases ci <;>
      simp [bind, Op.bind, getThis, crashNull, update, throwExn, invalidateCapabilities,
        Socket.handshake, Socket.wrap, hh]

theorem between_tag (op : Between) (c : IMAPConnection) :
    (op.run c).m_tag = c.m_tag ∧ (op.run c).m_firstTag = c.m_firstTag := by
  cases op with
  | untaggedSend what end_ => exact send_untagged_tag what end_ c
  | read => exact readResponse_tag c
  | startTLS => exact startTLSUpgrade_tag c
  | sasl mech => simp [Between.run, installSecuredSocket, update]

theorem runBetween_tag (ops : List Between) (c : IMAPConnection) :
    (runBetween ops c).m_tag = c.m_tag ∧ (runBetween ops c).m_firstTag = c.m_firstTag := by
  induction ops generalizing c with
  | nil => simp [runBetween]
  | cons op ops ih =>
    have h1 := between_tag op c
    have h2 := ih (op.run c)
    simp only [runBetween]
    exact ⟨h2.1.trans h1.1, h2.2.trans h1.2⟩

theorem bind_ok {α β : Type} (m : Op α) (f : α → Op β) (c c2 : IMAPConnection) (b : β)
    (h : (m >>= f) c = (Res.ok b, c2)) :
    ∃ a c1, m c = (Res.ok a, c1) ∧ f a c1 = (Res.ok b, c2) := by
  simp only [bind, Op.bind] at h
  rcases hm : m c with ⟨r, c1⟩
  cases r with
  | ok a => rw [hm] at h; exact ⟨a, c1, rfl, h⟩
  | throws e => rw [hm] at h; simp at h
  | crash => rw [hm] at h; simp at h

theorem bind_of_ok {α β : Type} (m : Op α) (f : α → Op β) (c c1 : IMAPConnection) (a : α)
    (h : m c = (Res.ok a, c1)) : (m >>= f) c = f a c1 := by
  simp only [bind, Op.bind, h]

theorem readResponse_ok (c c1 : IMAPConnection) (r : response)
    (h : readResponse c = (Res.ok r, c1)) :
    ∃ p rest, c.m_parserRef = some p ∧ p.script = ParserEvent.response r :: rest ∧
      c1 = { c with m_parserRef := some { p with script := rest } } := by
  unfold readResponse at h
  cases hp : c.m_parserRef with
  | none => simp [hp] at h
  | some p =>
    cases hscript : p.script with
    | nil => simp [hp, hscript] at h
    | cons ev rest =>
      cases ev with
      | greeting g => simp [hp, hscript] at h
      | failure e => simp [hp, hscript] at h
      | response r1 =>
        simp [hp, hscript] at h
        exact ⟨p, rest, rfl, by rw [hscript, h.1], h.2.symm⟩

theorem isBadOrNotOK_eq (resp : response) (c : IMAPConnection) :
    isBadOrNotOK resp c = (Res.ok (!resp.isTaggedOK), c) := by
  unfold isBadOrNotOK response.isBad response.isTaggedOK taggedState
  rcases resp with ⟨items, done⟩
  cases done with
  | none => simp [pure, Op.pure]
  | some d =>
    cases d with
    | response_fatal bye => simp [pure, Op.pure]
    | response_tagged st =>
      cases hst : st.status <;> simp [pure, Op.pure, bind, Op.bind, hst]
      all_goals rfl

theorem Socket.wrap_handshakes (s : Socket) : s.wrap.handshakes = s.handshakes := rfl

theorem startTLSUpgrade_ok (c c1 : IMAPConnection)
    (h : startTLSUpgrade c = (Res.ok (), c1)) :
    ∃ s p infos, c.m_socket = some s ∧ c.m_parserRef = some p ∧ c.m_cntInfos = some infos ∧
      c1 = { c with
        m_socket := some s.wrap,
        m_parserRef := some { p with socket := s.wrap.id },
        m_secured := true,
        m_cntInfos := some { host := infos.host, port := infos.port, secured := true },
        m_capabilities := [],
        m_capabilitiesFetched := false } := by
  unfold startTLSUpgrade at h
  rcases c with ⟨st, au, so, pa, tg, hsep, state, th, sec, ci, ft, caps, cf, nm, rel⟩
  cases so with
  | none => simp [bind, Op.bind, getThis, crashNull] at h
  | some s =>
    cases hh : s.handshakes <;> cases pa <;> cases ci <;>
      simp [bind, Op.bind, getThis, crashNull, update, throwExn, invalidateCapabilities,
        Socket.handshake, Socket.wrap_handshakes, hh] at h
    exact ⟨_, _, _, rfl, rfl, rfl, h.symm⟩

theorem throw_after_not_ok {α : Type} (m : Op Unit) (e : Exn) (c c1 : IMAPConnection) (a : α) :
    (m >>= fun _ => (throwExn e : Op α)) c ≠ (Res.ok a, c1) := by
  intro h
  obtain ⟨_, _, _, h2⟩ := bind_ok _ _ _ _ _ h
  simp [throwExn] at h2

theorem send_keeps_script (tag : Bool) (what : String) (end_ : Bool) (c : IMAPConnection) :
    (send tag what end_ c).2.m_parserRef = c.m_parserRef := by
  rw [send_eq]
  cases tag <;> cases ht : c.m_tag <;> cases hs : c.m_socket <;> simp <;>
    split <;> rfl

theorem answerChallenge_keeps_script (mech : SASLMechanism) (challenge s_Error : String)
    (c : IMAPConnection) :
    (answerChallenge mech challenge s_Error c).2.m_parserRef = c.m_parserRef := by
  unfold answerChallenge tryCatch
  cases hl : mech.replies.lookup challenge with
  | none =>
    have h := send_keeps_script false "*" true c
    rcases hs : send false "*" true c with ⟨r, c1⟩
    rw [hs] at h
    cases r <;> simpa [throwExn, bind, Op.bind, pure, Op.pure, hs] using h
  | some reply =>
    have h := send_keeps_script false reply true c
    rcases hs : send false reply true c with ⟨r, c1⟩
    rw [hs] at h
    cases r with
    | ok u =>
      simpa [bind, Op.bind, pure, Op.pure, invalidateCapabilities, update, hs] using h
    | crash =>
      simpa [bind, Op.bind, pure, Op.pure, invalidateCapabilities, update, hs] using h
    | throws e =>
      cases e <;>
        simp [bind, Op.bind, pure, Op.pure, invalidateCapabilities, update, hs, throwExn]
      all_goals first | exact h | skip
      all_goals
        have h2 := send_keeps_script false "*" true c1
        rcases hs2 : send false "*" true c1 with ⟨r2, c2⟩
        rw [hs2] at h2
        cases r2 <;> simp <;> exact h2.trans h

theorem authenticateSASLExchange_fuel (mech : SASLMechanism) :
    ∀ (n m : Nat) (s_Error : String) (c : IMAPConnection),
      pendingEvents c < n → pendingEvents c < m →
      authenticateSASLExchange mech n s_Error c = authenticateSASLExchange mech m s_Error c := by
  intro n
  induction n with
  | zero => intro m s_Error c hn; omega
  | succ n ih =>
    intro m s_Error c hn hm
    cases m with
    | zero => omega
    | succ m =>
      unfold authenticateSASLExchange
      simp only [bind, Op.bind]
      rcases hr : readResponse c with ⟨r, cb⟩
      cases r with
      | throws e => rfl
      | crash => rfl
      | ok resp =>
        obtain ⟨p, rest, hp, hscript, hcb⟩ := readResponse_ok c cb resp hr
        have hlen : pendingEvents cb + 1 = pendingEvents c := by
          rw [hcb]
          simp [pendingEvents, hp, hscript]
        simp only
        cases resp.isTaggedOK with
        | true => rfl
        | false =>
          simp only [Bool.false_eq_true, if_false]
          cases firstContinueReq resp.continue_req_or_response_data with
          | none => rfl
          | some challenge =>
            simp only
            have hpar := answerChallenge_keeps_script mech challenge s_Error cb
            rcases ha : answerChallenge mech challenge s_Error cb with ⟨r2, cc⟩
            rw [ha] at hpar
            cases r2 with
            | throws e => simp only [Op.bind, ha]
            | crash => simp only [Op.bind, ha]
            | ok e1 =>
              have hcc : pendingEvents cc = pendingEvents cb := by
                simp only [pendingEvents]
                rw [show cc.m_parserRef = cb.m_parserRef from hpar]
              simp only [Op.bind, ha]
              exact ih m e1 cc (by omega) (by omega)

/-! ### Connection status -/

/-- C1: `isConnected()` is true exactly when a transport is present, the transport
reports itself open and the protocol state is Authenticated or Selected; in the states
None, NonAuthenticated and Logout it is false whatever the transport reports. -/
theorem isConnected_iff (c : IMAPConnection) :
    (isConnected c = true ↔
      ∃ s, c.m_socket = some s ∧ s.connected = true ∧
        (c.m_state = ProtocolStates.STATE_AUTHENTICATED ∨
         c.m_state = ProtocolStates.STATE_SELECTED)) ∧
    (c.m_state = ProtocolStates.STATE_NONE ∨
      c.m_state = ProtocolStates.STATE_NON_AUTHENTICATED ∨
      c.m_state = ProtocolStates.STATE_LOGOUT → isConnected c = false) := by
  unfold isConnected
  cases hs : c.m_socket with
  | none => simp
  | some s => cases hc : s.connected <;> cases hst : c.m_state <;> simp [hc]

/-- The instance of C1 at an open transport in state NonAuthenticated. -/
theorem isConnected_iff_witness :
    (sessionWith ProtocolStates.STATE_NON_AUTHENTICATED []).m_state =
        ProtocolStates.STATE_NON_AUTHENTICATED ∧
      isConnected (sessionWith ProtocolStates.STATE_NON_AUTHENTICATED []) = false :=
  ⟨rfl, (isConnected_iff (sessionWith ProtocolStates.STATE_NON_AUTHENTICATED [])).2
    (Or.inr (Or.inl rfl))⟩

/-! ### Command tags -/

/-- C2: when a tagged `send` has written its command and a second tagged `send`
follows, with untagged sends, reads and STARTTLS or SASL transport replacements in
between, the steps in between leave the tag counter as it was, and the second command
carries the tag of the first advanced exactly once, a strictly greater tag. -/
theorem tagged_send_advances_tag_once (c c1 : IMAPConnection) (ops : List Between)
    (what1 what2 : String) (end1 end2 : Bool)
    (h1 : send true what1 end1 c = (Res.ok (), c1))
    (h2 : (send true what2 end2 (runBetween ops c1)).1 = Res.ok ()) :
    ∃ t : IMAPTag,
      c1.m_tag = some t ∧
      lastSent c1 = some (t.render ++ " " ++ what1 ++ lineEnd end1) ∧
      (runBetween ops c1).m_tag = some t ∧
      (send true what2 end2 (runBetween ops c1)).2.m_tag = some t.increment ∧
      lastSent (send true what2 end2 (runBetween ops c1)).2 =
        some (t.increment.render ++ " " ++ what2 ++ lineEnd end2) ∧
      t.number < t.increment.number := by
  obtain ⟨t0, s, _, _, _, _, hc1⟩ := send_tagged_ok what1 end1 c c1 h1
  have htag1 : c1.m_tag = some (if c.m_firstTag then t0 else t0.increment) := by rw [hc1]
  have hfirst1 : c1.m_firstTag = false := by rw [hc1]
  have hlast1 : lastSent c1 =
      some ((if c.m_firstTag then t0 else t0.increment).render ++ " " ++ what1 ++
        lineEnd end1) := by
    rw [hc1]; simp [lastSent, Socket.log]
  obtain ⟨hbt, hbf⟩ := runBetween_tag ops c1
  generalize runBetween ops c1 = c2 at h2 hbt hbf
  generalize (if c.m_firstTag then t0 else t0.increment) = t at htag1 hlast1
  have htag2 : c2.m_tag = some t := hbt.trans htag1
  have hfirst2 : c2.m_firstTag = false := hbf.trans hfirst1
  refine ⟨t, htag1, hlast1, htag2, ?_, ?_, ?_⟩
  · rw [send_eq] at h2 ⊢
    cases hs : c2.m_socket with
    | none => simp [htag2, hs] at h2
    | some s2 =>
      cases hc : s2.connected <;> cases ha : s2.accepts <;>
        simp [htag2, hfirst2, hs, hc, ha] at h2 ⊢
  · rw [send_eq] at h2 ⊢
    cases hs : c2.m_socket with
    | none => simp [htag2, hs] at h2
    | some s2 =>
      cases hc : s2.connected <;> cases ha : s2.accepts <;>
        simp [htag2, hfirst2, hs, hc, ha, lastSent, Socket.log] at h2 ⊢
  · simp [IMAPTag.increment]

/-- The instance of C2 at a session in which `STARTTLS` is sent, its response is read,
the transport is replaced by the TLS socket, a SASL response is sent untagged, a SASL
security layer is installed, and `CAPABILITY` is sent. -/
theorem tagged_send_advances_tag_once_witness :
    ∃ t : IMAPTag,
      (send true "STARTTLS" true
          (sessionWith ProtocolStates.STATE_NON_AUTHENTICATED
            [ParserEvent.response (okResponse [])])).2.m_tag = some t ∧
      lastSent (send true "STARTTLS" true
          (sessionWith ProtocolStates.STATE_NON_AUTHENTICATED
            [ParserEvent.response (okResponse [])])).2 =
        some (t.render ++ " " ++ "STARTTLS" ++ lineEnd true) ∧
      (runBetween
          [Between.read, Between.startTLS, Between.untaggedSend "dGVzdA==" true,
            Between.sasl { name := "PLAIN", replies := [], rejection := "", securityLayer := true }]
          (send true "STARTTLS" true
            (sessionWith ProtocolStates.STATE_NON_AUTHENTICATED
              [ParserEvent.response (okResponse [])])).2).m_tag = some t ∧
      (send true "CAPABILITY" true (runBetween
          [Between.read, Between.startTLS, Between.untaggedSend "dGVzdA==" true,
            Between.sasl { name := "PLAIN", replies := [], rejection := "", securityLayer := true }]
          (send true "STARTTLS" true
            (sessionWith ProtocolStates.STATE_NON_AUTHENTICATED
              [ParserEvent.response (okResponse [])])).2)).2.m_tag = some t.increment ∧
      lastSent (send true "CAPABILITY" true (runBetween
          [Between.read, Between.startTLS, Between.untaggedSend "dGVzdA==" true,
            Between.sasl { name := "PLAIN", replies := [], rejection := "", securityLayer := true }]
          (send true "STARTTLS" true
            (sessionWith ProtocolStates.STATE_NON_AUTHENTICATED
              [ParserEvent.response (okResponse [])])).2)).2 =
        some (t.increment.render ++ " " ++ "CAPABILITY" ++ lineEnd true) ∧
      t.number < t.increment.number :=
  tagged_send_advances_tag_once
    (sessionWith ProtocolStates.STATE_NON_AUTHENTICATED [ParserEvent.response (okResponse [])])
    (send true "STARTTLS" true
      (sessionWith ProtocolStates.STATE_NON_AUTHENTICATED
        [ParserEvent.response (okResponse [])])).2
    [Between.read, Between.startTLS, Between.untaggedSend "dGVzdA==" true,
      Between.sasl { name := "PLAIN", replies := [], rejection := "", securityLayer := true }]
    "STARTTLS" "CAPABILITY" true true (by decide) (by decide)

/-- C3: the evaluation of the code on `connect`, `disconnect`, `connect`. Every call
returns; the first connection sends its first tagged command, `LIST`, with the tag the
fresh generator holds (`a001`); the second connection creates a fresh generator as well,
but sends its first tagged command with that tag advanced once (`a002`), because
`m_firstTag` is still false from the first connection. -/
theorem reconnect_first_tag_is_advanced :
    firstConnect.1 = Res.ok () ∧
    firstConnect.2.m_socket.map Socket.sent =
      some [IMAPTag.initial.render ++ " LIST \"\" \"\"\r\n"] ∧
    (disconnect firstConnect.2).1 = Res.ok () ∧
    (disconnect firstConnect.2).2.m_firstTag = false ∧
    secondConnect.1 = Res.ok () ∧
    secondConnect.2.m_socket.map Socket.sent =
      some [IMAPTag.initial.increment.render ++ " LIST \"\" \"\"\r\n"] ∧
    IMAPTag.initial.increment.render ≠ IMAPTag.initial.render := by
  decide

/-! ### STARTTLS -/

/-- C4: after `startTLS()` returned without an exception the connection is secured,
the capability list is empty and marked not fetched, and the connection-info holds the
host and the port it held before the call. -/
theorem startTLS_ok (c c1 : IMAPConnection) (h : startTLS c = (Res.ok (), c1)) :
    isSecuredConnection c1 = true ∧
    c1.m_capabilities = [] ∧
    c1.m_capabilitiesFetched = false ∧
    ∃ before after, getConnectionInfos c = some before ∧
      getConnectionInfos c1 = some after ∧
      after.host = before.host ∧ after.port = before.port := by
  have hbody : startTLSBody c = (Res.ok (), c1) := by
    unfold startTLS tryCatch at h
    rcases hb : startTLSBody c with ⟨r, c2⟩
    rw [hb] at h
    cases r with
    | ok u => simpa using h
    | crash => simp at h
    | throws e =>
      exfalso
      cases e <;> simp only at h <;>
        first
        | exact throw_after_not_ok _ _ _ _ _ h
        | simp [throwExn] at h
  unfold startTLSBody at hbody
  obtain ⟨_, ca, hsend, hrest⟩ := bind_ok _ _ _ _ _ hbody
  obtain ⟨resp, cb, hread, hrest⟩ := bind_ok _ _ _ _ _ hrest
  obtain ⟨bad, cb1, hbad, hrest⟩ := bind_ok _ _ _ _ _ hrest
  rw [isBadOrNotOK_eq] at hbad
  obtain ⟨t0, s, _, _, _, _, hca⟩ := send_tagged_ok _ _ _ _ hsend
  obtain ⟨p, rest, _, _, hcb⟩ := readResponse_ok _ _ _ hread
  have hcb1 : cb1 = cb := by simp at hbad; exact hbad.2.symm
  have hup : startTLSUpgrade cb1 = (Res.ok (), c1) := by
    cases bad <;> simp [throwExn, pure, Op.pure, bind, Op.bind] at hrest
    exact hrest
  obtain ⟨s1, p1, infos, _, _, hinfos, hc1⟩ := startTLSUpgrade_ok _ _ hup
  have hinfos0 : c.m_cntInfos = some infos := by
    rw [hcb1, hcb, hca] at hinfos
    exact hinfos
  refine ⟨by rw [hc1]; rfl, by rw [hc1], by rw [hc1], infos,
    { host := infos.host, port := infos.port, secured := true }, hinfos0, by rw [hc1]; rfl,
    rfl, rfl⟩

/-- The instance of C4 at a session whose server answers `STARTTLS` with tagged `OK`. -/
theorem startTLS_ok_witness :
    isSecuredConnection (startTLS (sessionWith ProtocolStates.STATE_NON_AUTHENTICATED
        [ParserEvent.response (okResponse [])])).2 = true ∧
    (startTLS (sessionWith ProtocolStates.STATE_NON_AUTHENTICATED
        [ParserEvent.response (okResponse [])])).2.m_capabilities = [] ∧
    (startTLS (sessionWith ProtocolStates.STATE_NON_AUTHENTICATED
        [ParserEvent.response (okResponse [])])).2.m_capabilitiesFetched = false ∧
    ∃ before after,
      getConnectionInfos (sessionWith ProtocolStates.STATE_NON_AUTHENTICATED
        [ParserEvent.response (okResponse [])]) = some before ∧
      getConnectionInfos (startTLS (sessionWith ProtocolStates.STATE_NON_AUTHENTICATED
        [ParserEvent.response (okResponse [])])).2 = some after ∧
      after.host = before.host ∧ after.port = before.port :=
  startTLS_ok
    (sessionWith ProtocolStates.STATE_NON_AUTHENTICATED [ParserEvent.response (okResponse [])])
    (startTLS (sessionWith ProtocolStates.STATE_NON_AUTHENTICATED
      [ParserEvent.response (okResponse [])])).2
    (by decide)

/-! ### Capabilities -/

theorem processCapabilityResponseDataLoop_eq (items : List continue_req_or_response_data)
    (c : IMAPConnection) :
    processCapabilityResponseDataLoop items c =
      match (untaggedCapabilityData
        { continue_req_or_response_data := items, response_done := none }).head? with
      | some capaData => (Res.ok true, withCapabilities c capaData)
      | none => (Res.ok false, c) := by
  induction items with
  | nil => simp [processCapabilityResponseDataLoop, untaggedCapabilityData, pure, Op.pure]
  | cons item rest ih =>
    cases item with
    | continue_req text =>
      simpa [processCapabilityResponseDataLoop, untaggedCapabilityData] using ih
    | response_data d =>
      cases d with
      | capability_data capaData =>
        simp [processCapabilityResponseDataLoop, untaggedCapabilityData, processCapabilityData,
          withCapabilities, bind, Op.bind, update, pure, Op.pure]
      | resp_cond_state st =>
        simpa [processCapabilityResponseDataLoop, untaggedCapabilityData] using ih
      | resp_cond_bye bye =>
        simpa [processCapabilityResponseDataLoop, untaggedCapabilityData] using ih
      | mailbox_data m =>
        simpa [processCapabilityResponseDataLoop, untaggedCapabilityData] using ih
      | message_data =>
        simpa [processCapabilityResponseDataLoop, untaggedCapabilityData] using ih

theorem processCapabilityResponseData_eq (resp : response) (c : IMAPConnection) :
    processCapabilityResponseData resp c =
      match (untaggedCapabilityData resp).head? with
      | some capaData => (Res.ok true, withCapabilities c capaData)
      | none => (Res.ok false, c) := by
  unfold processCapabilityResponseData
  rw [processCapabilityResponseDataLoop_eq]
  rfl

theorem isTaggedOK_done (resp : response) (h : resp.isTaggedOK = true) :
    ∃ st, resp.response_done = some (response_done.response_tagged st) ∧
      st.status = Status.OK := by
  unfold response.isTaggedOK at h
  rcases resp with ⟨items, done⟩
  cases done with
  | none => simp at h
  | some d =>
    cases d with
    | response_fatal bye => simp at h
    | response_tagged st => exact ⟨st, rfl, by simpa using h⟩

theorem fetchCapabilities_rest_socket (ca : IMAPConnection) :
    ((readResponse >>= fun resp => taggedState resp >>= fun st =>
        if st.status == Status.OK then
          (processCapabilityResponseData resp >>= fun _ => (pure () : Op Unit))
        else (pure () : Op Unit)) ca).2.m_socket = ca.m_socket := by
  simp only [bind, Op.bind]
  rcases hr : readResponse ca with ⟨r, cb⟩
  have hsock : cb.m_socket = ca.m_socket := by
    unfold readResponse at hr
    cases hp : ca.m_parserRef with
    | none => simp [hp] at hr; rw [← hr.2]
    | some p =>
      cases hscript : p.script with
      | nil => simp [hp, hscript] at hr; rw [← hr.2]
      | cons ev rest => cases ev <;> simp [hp, hscript] at hr <;> rw [← hr.2]
  cases r with
  | throws e => simpa using hsock
  | crash => simpa using hsock
  | ok resp =>
    simp only
    unfold taggedState
    rcases resp with ⟨items, done⟩
    cases done with
    | none => simpa [crashNull] using hsock
    | some d =>
      cases d with
      | response_fatal bye => simpa [crashNull] using hsock
      | response_tagged st =>
        cases hst : st.status <;> simp [pure, Op.pure, hst, hsock]
        unfold Op.bind
        rw [processCapabilityResponseData_eq]
        cases (untaggedCapabilityData
          { continue_req_or_response_data := items,
            response_done := some (response_done.response_tagged st) }).head? <;>
          simp [withCapabilities, hsock, Op.pure]

theorem fetchCapabilities_sends (c : IMAPConnection) (t : IMAPTag) (s : Socket)
    (ht : c.m_tag = some t) (hfirst : c.m_firstTag = false) (hs : c.m_socket = some s)
    (hc : s.connected = true) (ha : s.accepts = true) :
    (fetchCapabilities c).2.m_socket =
      some (s.log (t.increment.render ++ " " ++ "CAPABILITY" ++ lineEnd true)) := by
  have hsend : send true "CAPABILITY" true c =
      (Res.ok (), { c with m_tag := some t.increment, m_firstTag := false, m_socket := some (s.log (t.increment.render ++ " " ++ "CAPABILITY" ++ lineEnd true)) }) := by
    rw [send_eq]
    simp [ht, hfirst, hs, hc, ha]
  unfold fetchCapabilities
  rw [bind_of_ok _ _ _ _ _ hsend]
  exact fetchCapabilities_rest_socket _

theorem fetchCapabilities_without_data (c ca cb : IMAPConnection) (resp : response)
    (hsend : send true "CAPABILITY" true c = (Res.ok (), ca))
    (hread : readResponse ca = (Res.ok resp, cb))
    (hok : resp.isTaggedOK = true)
    (hnone : untaggedCapabilityData resp = []) :
    fetchCapabilities c = (Res.ok (), cb) := by
  obtain ⟨st, hdone, hst⟩ := isTaggedOK_done resp hok
  unfold fetchCapabilities
  rw [bind_of_ok _ _ _ _ _ hsend, bind_of_ok _ _ _ _ _ hread]
  have htagged : taggedState resp cb = (Res.ok st, cb) := by
    simp [taggedState, hdone, pure, Op.pure]
  rw [bind_of_ok _ _ _ _ _ htagged]
  simp [hst, bind, Op.bind, processCapabilityResponseData_eq, hnone, pure, Op.pure]

theorem lookup_unfetched (name : String) (c : IMAPConnection)
    (hf : c.m_capabilitiesFetched = false) :
    getCapabilities c =
      (fetchCapabilities >>= fun _ => fun c1 => (Res.ok c1.m_capabilities, c1)) c ∧
    hasCapability name c =
      (fetchCapabilities >>= fun _ => fun c1 =>
        (Res.ok (containsCapability (toUpper name) c1.m_capabilities), c1)) c := by
  unfold getCapabilities hasCapability
  simp only [bind, Op.bind, getThis, hf, pure, Op.pure]
  rcases hr : fetchCapabilities c with ⟨r, c1⟩
  cases r <;> simp [Op.bind, hr, getThis, Op.pure]

/-- C5: the evaluation of the code on a cache that was filled from the capability list
`imap4rev1 AUTH=plain`. The atom is stored in upper case and is found in whatever case
it is asked for; the mechanism entry is stored as the parser delivered it,
`AUTH=plain`, and `hasCapability` answers false for `AUTH=PLAIN`, `auth=plain` and
`AUTH=plain`, each of which equals the stored entry when letter case is ignored. -/
theorem hasCapability_misses_auth_entry :
    lowercaseAuthCache.m_capabilities = ["IMAP4REV1", "AUTH=plain"] ∧
    lowercaseAuthCache.m_capabilitiesFetched = true ∧
    (hasCapability "imap4REV1" lowercaseAuthCache).1 = Res.ok true ∧
    eqIgnoreCase "AUTH=plain" "AUTH=PLAIN" = true ∧
    (hasCapability "AUTH=PLAIN" lowercaseAuthCache).1 = Res.ok false ∧
    eqIgnoreCase "AUTH=plain" "auth=plain" = true ∧
    (hasCapability "auth=plain" lowercaseAuthCache).1 = Res.ok false ∧
    (hasCapability "AUTH=plain" lowercaseAuthCache).1 = Res.ok false := by
  decide!

/-- C6, as stated, fails: a response whose only capability-data is the `CAPABILITY`
response-text-code of its tagged `OK` contains a capability-data node, yet ingesting it
returns false and leaves the cache as it was. -/
theorem processCapabilityResponseData_ignores_tagged_code :
    containsCapabilityData okWithCapabilityCode = true ∧
    ¬ ((processCapabilityResponseData okWithCapabilityCode (authenticatedSession [])).1 =
          Res.ok true ↔
        containsCapabilityData okWithCapabilityCode = true) ∧
    processCapabilityResponseData okWithCapabilityCode (authenticatedSession []) =
      (Res.ok false, authenticatedSession []) := by
  decide!

/-- C6, amended: ingesting a response returns true exactly when one of its untagged
items is capability-data; then the cache is replaced by the first such item, in arrival
order, and marked fetched; otherwise the cache is left as it was. The response-text-code
of the tagged status is not looked at. -/
theorem processCapabilityResponseData_untagged (resp : response) (c : IMAPConnection) :
    ((processCapabilityResponseData resp c).1 = Res.ok true ↔
      untaggedCapabilityData resp ≠ []) ∧
    processCapabilityResponseData resp c =
      match (untaggedCapabilityData resp).head? with
      | some capaData => (Res.ok true, withCapabilities c capaData)
      | none => (Res.ok false, c) := by
  have h := processCapabilityResponseData_eq resp c
  refine ⟨?_, h⟩
  rw [h]
  cases hl : untaggedCapabilityData resp with
  | nil => simp
  | cons d rest => simp

theorem bind_state_pure {α β : Type} (m : Op α) (g : IMAPConnection → β) (c : IMAPConnection) :
    ((m >>= fun _ => fun c1 => (Res.ok (g c1), c1)) c).2 = (m c).2 := by
  simp only [bind, Op.bind]
  rcases hm : m c with ⟨r, c1⟩
  cases r <;> rfl

/-- C7, as stated, fails: in an authenticated session whose cache is not fetched the
server answers `CAPABILITY` with tagged `OK` and no capability-data; `getCapabilities`
returns the empty list and the cache is still marked not fetched, so the lookup that
follows sends `CAPABILITY` again. -/
theorem getCapabilities_without_data_stays_unfetched :
    (authenticatedSession [ParserEvent.response (okResponse []),
        ParserEvent.response (okResponse [])]).m_capabilitiesFetched = false ∧
    (getCapabilities (authenticatedSession [ParserEvent.response (okResponse []),
        ParserEvent.response (okResponse [])])).1 = Res.ok [] ∧
    ¬ ((getCapabilities (authenticatedSession [ParserEvent.response (okResponse []),
        ParserEvent.response (okResponse [])])).2.m_capabilitiesFetched = true) ∧
    sentLines (hasCapability "IDLE" (getCapabilities (authenticatedSession
        [ParserEvent.response (okResponse []), ParserEvent.response (okResponse [])])).2).2 =
      ["a001 LOGIN \"alice\" \"s3cret\"\r\n", "a002 LIST \"\" \"\"\r\n",
       "a003 CAPABILITY\r\n", "a004 CAPABILITY\r\n"] := by
  decide!

/-- C7, amended: when the cache is not fetched and the `CAPABILITY` command that
`getCapabilities()` or `hasCapability()` issues is answered by tagged `OK` without
capability-data among the untagged items, the lookup returns what the cache held, the
cache list is as it was and is still marked not fetched, and the lookup that follows
writes `CAPABILITY` to the transport again, under the next tag. -/
theorem lookup_without_data_stays_unfetched (c ca cb : IMAPConnection) (resp : response)
    (name : String)
    (hf : c.m_capabilitiesFetched = false)
    (hsend : send true "CAPABILITY" true c = (Res.ok (), ca))
    (hread : readResponse ca = (Res.ok resp, cb))
    (hok : resp.isTaggedOK = true)
    (hnone : untaggedCapabilityData resp = []) :
    getCapabilities c = (Res.ok c.m_capabilities, cb) ∧
    hasCapability name c = (Res.ok (containsCapability (toUpper name) c.m_capabilities), cb) ∧
    cb.m_capabilities = c.m_capabilities ∧
    cb.m_capabilitiesFetched = false ∧
    ∃ t s, cb.m_tag = some t ∧ cb.m_socket = some s ∧
      (getCapabilities cb).2.m_socket =
        some (s.log (t.increment.render ++ " " ++ "CAPABILITY" ++ lineEnd true)) ∧
      (hasCapability name cb).2.m_socket =
        some (s.log (t.increment.render ++ " " ++ "CAPABILITY" ++ lineEnd true)) := by
  have hfetch := fetchCapabilities_without_data c ca cb resp hsend hread hok hnone
  obtain ⟨t0, s, _, _, hc, ha, hca⟩ := send_tagged_ok _ _ _ _ hsend
  obtain ⟨p, rest, _, _, hcb⟩ := readResponse_ok _ _ _ hread
  have hcaps : cb.m_capabilities = c.m_capabilities := by rw [hcb, hca]
  have hfetched : cb.m_capabilitiesFetched = false := by rw [hcb, hca]; exact hf
  obtain ⟨hget, hhas⟩ := lookup_unfetched name c hf
  refine ⟨?_, ?_, hcaps, hfetched, ?_⟩
  · rw [hget, bind_of_ok _ _ _ _ _ hfetch, hcaps]
  · rw [hhas, bind_of_ok _ _ _ _ _ hfetch, hcaps]
  · obtain ⟨hget2, hhas2⟩ := lookup_unfetched name cb hfetched
    have htag : cb.m_tag = some (if c.m_firstTag then t0 else t0.increment) := by
      rw [hcb, hca]
    have hfirst : cb.m_firstTag = false := by rw [hcb, hca]
    have hsock : cb.m_socket = some (s.log ((if c.m_firstTag then t0 else
        t0.increment).render ++ " " ++ "CAPABILITY" ++ lineEnd true)) := by
      rw [hcb, hca]
    have hsends := fetchCapabilities_sends cb _ _ htag hfirst hsock hc ha
    refine ⟨_, _, htag, hsock, ?_, ?_⟩
    · rw [hget2, bind_state_pure]; exact hsends
    · rw [hhas2, bind_state_pure]; exact hsends

/-- The instance of C7, amended, at an authenticated session whose server answers
`CAPABILITY` with a bare tagged `OK`. -/
theorem lookup_without_data_stays_unfetched_witness :
    getCapabilities (authenticatedSession [ParserEvent.response (okResponse [])]) =
      (Res.ok (authenticatedSession [ParserEvent.response (okResponse [])]).m_capabilities,
        (fetchCapabilities (authenticatedSession [ParserEvent.response (okResponse [])])).2) ∧
    (fetchCapabilities
      (authenticatedSession [ParserEvent.response (okResponse [])])).2.m_capabilitiesFetched =
        false :=
  have h := lookup_without_data_stays_unfetched
    (authenticatedSession [ParserEvent.response (okResponse [])])
    (send true "CAPABILITY" true
      (authenticatedSession [ParserEvent.response (okResponse [])])).2
    (fetchCapabilities (authenticatedSession [ParserEvent.response (okResponse [])])).2
    (okResponse []) "IDLE" (by decide!) (by decide!) (by decide!) (by decide) (by decide)
  ⟨h.1, h.2.2.2.1⟩

/-! ### Disconnection -/

theorem internalDisconnect_eq (c : IMAPConnection) :
    internalDisconnect c =
      if isConnected c then
        match sendLogoutAndClose c with
        | (Res.ok _, ca) =>
          (Res.ok (), { ca with released := releasedAfterDrop ca, m_socket := none, m_timeoutHandler := none, m_state := ProtocolStates.STATE_LOGOUT, m_secured := false, m_cntInfos := none })
        | (Res.throws e, ca) => (Res.throws e, ca)
        | (Res.crash, ca) => (Res.crash, ca)
      else
        (Res.ok (), { c with m_timeoutHandler := none, m_state := ProtocolStates.STATE_LOGOUT, m_secured := false, m_cntInfos := none }) := by
  unfold internalDisconnect
  cases hcon : isConnected c
  · simp [bind, Op.bind, getThis, update, pure, Op.pure, hcon]
  · simp only [bind, Op.bind, getThis, update, pure, Op.pure, hcon]
    rcases hl : sendLogoutAndClose c with ⟨r, ca⟩
    cases r <;> simp [Op.bind, hl, update]

theorem sendLogoutAndClose_eq (c : IMAPConnection) :
    sendLogoutAndClose c =
      match send true "LOGOUT" true c with
      | (Res.ok _, cs) => (Res.ok (), { cs with m_socket := cs.m_socket.map Socket.disconnect })
      | (Res.throws e, cs) => (Res.throws e, cs)
      | (Res.crash, cs) => (Res.crash, cs) := by
  unfold sendLogoutAndClose
  simp only [bind, Op.bind, update]
  rcases hs : send true "LOGOUT" true c with ⟨r, cs⟩
  cases r <;> rfl

theorem send_keeps_fields (tag : Bool) (what : String) (end_ : Bool) (c : IMAPConnection) :
    (send tag what end_ c).2.m_timeoutHandler = c.m_timeoutHandler ∧
    (send tag what end_ c).2.m_state = c.m_state ∧
    (send tag what end_ c).2.m_secured = c.m_secured ∧
    (send tag what end_ c).2.m_cntInfos = c.m_cntInfos ∧
    (send tag what end_ c).2.released = c.released := by
  rw [send_eq]
  cases tag <;> cases ht : c.m_tag <;> cases hs : c.m_socket <;> simp <;>
    split <;> simp

theorem send_failed_keeps_socket (tag : Bool) (what : String) (end_ : Bool)
    (c : IMAPConnection) (h : (send tag what end_ c).1 ≠ Res.ok ()) :
    (send tag what end_ c).2.m_socket = c.m_socket := by
  rw [send_eq] at h ⊢
  cases tag <;> cases ht : c.m_tag <;> cases hs : c.m_socket <;> simp [ht, hs] at h ⊢ <;>
    split <;> simp_all

/-- C8, as stated, fails on two inputs. In state NonAuthenticated with an open
transport `internalDisconnect()` returns with the protocol state Logout, but the
transport is still attached and still open, and nothing was written to it. In state
Authenticated with a transport that refuses the write of `LOGOUT` it throws the socket
exception, and the state stays Authenticated with connection-info and transport as
they were. -/
theorem internalDisconnect_leaves_transport :
    (internalDisconnect (sessionWith ProtocolStates.STATE_NON_AUTHENTICATED [])).1 =
      Res.ok () ∧
    (internalDisconnect (sessionWith ProtocolStates.STATE_NON_AUTHENTICATED [])).2.m_state =
      ProtocolStates.STATE_LOGOUT ∧
    (internalDisconnect (sessionWith ProtocolStates.STATE_NON_AUTHENTICATED [])).2.m_socket =
      some openSocket ∧
    openSocket.connected = true ∧
    (internalDisconnect brokenSession).1 = Res.throws Exn.socket_exception ∧
    (internalDisconnect brokenSession).2.m_state = ProtocolStates.STATE_AUTHENTICATED ∧
    (internalDisconnect brokenSession).2.m_cntInfos = brokenSession.m_cntInfos ∧
    brokenSession.m_cntInfos ≠ none ∧
    (internalDisconnect brokenSession).2.m_socket = brokenSession.m_socket ∧
    brokenSession.m_socket.map Socket.connected = some true := by
  decide!

/-- C8, amended: `internalDisconnect()` returns whenever `isConnected()` is false or the
write of `LOGOUT` succeeds. Whenever it returns, the time-out handler is dropped, the
protocol state is Logout, the secured flag is false and the connection-info is cleared;
and when `isConnected()` held before the call, the connection no longer holds the
transport, and the socket object it released is the one it held, now closed, with
`LOGOUT` as the last line written to it. When `isConnected()` holds and the write of
`LOGOUT` fails, `internalDisconnect()` ends the way that write ended, with its exception,
and nothing is reset: transport, time-out handler, protocol state, secured flag and
connection-info are as they were, and no socket is released. -/
theorem internalDisconnect_returned (c : IMAPConnection) :
    (isConnected c = false ∨ (send true "LOGOUT" true c).1 = Res.ok () →
      (internalDisconnect c).1 = Res.ok ()) ∧
    ((internalDisconnect c).1 = Res.ok () →
      (internalDisconnect c).2.m_timeoutHandler = none ∧
      (internalDisconnect c).2.m_state = ProtocolStates.STATE_LOGOUT ∧
      (internalDisconnect c).2.m_secured = false ∧
      (internalDisconnect c).2.m_cntInfos = none ∧
      (isConnected c = true →
        (internalDisconnect c).2.m_socket = none ∧
        ∃ (t : IMAPTag) (before closed : Socket),
          c.m_socket = some before ∧
          (internalDisconnect c).2.released = c.released ++ [closed] ∧
          closed.id = before.id ∧
          closed.connected = false ∧
          closed.sent = before.sent ++ [t.render ++ " " ++ "LOGOUT" ++ lineEnd true])) ∧
    (isConnected c = true → (send true "LOGOUT" true c).1 ≠ Res.ok () →
      internalDisconnect c = send true "LOGOUT" true c ∧
      (internalDisconnect c).1 ≠ Res.ok () ∧
      (internalDisconnect c).2.m_socket = c.m_socket ∧
      (internalDisconnect c).2.m_timeoutHandler = c.m_timeoutHandler ∧
      (internalDisconnect c).2.m_state = c.m_state ∧
      (internalDisconnect c).2.m_secured = c.m_secured ∧
      (internalDisconnect c).2.m_cntInfos = c.m_cntInfos ∧
      (internalDisconnect c).2.released = c.released) := by
  have hfull := internalDisconnect_eq c
  rw [sendLogoutAndClose_eq] at hfull
  cases hcon : isConnected c
  · rw [hcon] at hfull
    simp only [Bool.false_eq_true, if_false] at hfull
    rw [hfull]
    simp
  · rw [hcon] at hfull
    simp only [if_true] at hfull
    rcases hs : send true "LOGOUT" true c with ⟨r, cs⟩
    rw [hs] at hfull
    have hkeep := send_keeps_fields true "LOGOUT" true c
    have hsock := send_failed_keeps_socket true "LOGOUT" true c
    rw [hs] at hkeep hsock
    cases r with
    | ok u =>
      simp only at hfull
      obtain ⟨t0, before, _, hbefore, _, _, hcs⟩ := send_tagged_ok _ _ _ _ hs
      refine ⟨fun _ => by rw [hfull], fun _ => ?_, fun _ hne => absurd rfl hne⟩
      rw [hfull]
      refine ⟨rfl, rfl, rfl, rfl, fun _ => ⟨rfl, if c.m_firstTag then t0 else t0.increment,
        before,
        (before.log ((if c.m_firstTag then t0 else t0.increment).render ++ " " ++ "LOGOUT" ++
          lineEnd true)).disconnect, hbefore, ?_, rfl, rfl, rfl⟩⟩
      rw [hcs]
      rfl
    | throws e =>
      simp only at hfull
      rw [hfull]
      refine ⟨fun h => ?_, fun h => ?_, fun _ hne => ?_⟩
      · rcases h with h | h <;> simp at h
      · simp at h
      · exact ⟨rfl, by simp, hsock hne, hkeep.1, hkeep.2.1, hkeep.2.2.1, hkeep.2.2.2.1,
          hkeep.2.2.2.2⟩
    | crash =>
      simp only at hfull
      rw [hfull]
      refine ⟨fun h => ?_, fun h => ?_, fun _ hne => ?_⟩
      · rcases h with h | h <;> simp at h
      · simp at h
      · exact ⟨rfl, by simp, hsock hne, hkeep.1, hkeep.2.1, hkeep.2.2.1, hkeep.2.2.2.1,
          hkeep.2.2.2.2⟩

/-- The instance of C8, amended, at an authenticated session with a working transport,
where `internalDisconnect` returns and the released socket is closed, and at one whose
transport refuses writes, where it throws and resets nothing. -/
theorem internalDisconnect_returned_witness :
    ((internalDisconnect (authenticatedSession [])).1 = Res.ok () ∧
      (internalDisconnect (authenticatedSession [])).2.m_state =
        ProtocolStates.STATE_LOGOUT ∧
      (internalDisconnect (authenticatedSession [])).2.m_socket = none ∧
      ∃ (t : IMAPTag) (before closed : Socket),
        (authenticatedSession []).m_socket = some before ∧
        (internalDisconnect (authenticatedSession [])).2.released =
          (authenticatedSession []).released ++ [closed] ∧
        closed.id = before.id ∧
        closed.connected = false ∧
        closed.sent = before.sent ++ [t.render ++ " " ++ "LOGOUT" ++ lineEnd true]) ∧
    (internalDisconnect brokenSession = send true "LOGOUT" true brokenSession ∧
      (internalDisconnect brokenSession).1 ≠ Res.ok () ∧
      (internalDisconnect brokenSession).2.m_socket = brokenSession.m_socket ∧
      (internalDisconnect brokenSession).2.m_state = brokenSession.m_state) :=
  have h := internalDisconnect_returned (authenticatedSession [])
  have hret := h.1 (Or.inr (by decide!))
  have hb := (internalDisconnect_returned brokenSession).2.2 (by decide!) (by decide!)
  ⟨⟨hret, (h.2.1 hret).2.1, ((h.2.1 hret).2.2.2.2 (by decide!)).1,
      ((h.2.1 hret).2.2.2.2 (by decide!)).2⟩,
    ⟨hb.1, hb.2.1, hb.2.2.1, hb.2.2.2.2.1⟩⟩

theorem disconnect_eq (c : IMAPConnection) :
    disconnect c = if isConnected c then internalDisconnect c else (Res.ok (), c) := by
  unfold disconnect
  cases hcon : isConnected c <;> simp [bind, Op.bind, getThis, pure, Op.pure, hcon]

theorem isConnected_without_socket (c : IMAPConnection) (h : c.m_socket = none) :
    isConnected c = false := by
  simp [isConnected, h]

/-- C9, as stated, fails: in an authenticated session whose transport refuses writes,
`disconnect()` throws and leaves the tag counter advanced, the connection is still
connected, and a second `disconnect()` advances the counter again; the state after two
calls is not the state after one. -/
theorem disconnect_twice_differs :
    (disconnect brokenSession).1 = Res.throws Exn.socket_exception ∧
    isConnected (disconnect brokenSession).2 = true ∧
    (disconnect brokenSession).2.m_tag = some { number := 3 } ∧
    (disconnect (disconnect brokenSession).2).2.m_tag = some { number := 4 } ∧
    (disconnect (disconnect brokenSession).2).2 ≠ (disconnect brokenSession).2 := by
  decide!

/-- C9, amended: in every state in which `isConnected()` is false `disconnect()`
returns and leaves every field of the connection, the log of the transport included,
as it was; and for every state from which `disconnect()` returns, a second
`disconnect()` returns as well and leaves the state the first call produced: it changes
no field and writes nothing. -/
theorem disconnect_idempotent (c : IMAPConnection) :
    (isConnected c = false → disconnect c = (Res.ok (), c)) ∧
    ((disconnect c).1 = Res.ok () →
      disconnect (disconnect c).2 = (Res.ok (), (disconnect c).2)) := by
  constructor
  · intro h
    rw [disconnect_eq, h]
    simp
  · intro h
    rw [disconnect_eq (disconnect c).2]
    have hnot : isConnected (disconnect c).2 = false := by
      rw [disconnect_eq] at h ⊢
      cases hcon : isConnected c
      · simpa using hcon
      · rw [hcon] at h
        simp only [if_true] at h ⊢
        rw [internalDisconnect_eq, hcon] at h ⊢
        simp only [if_true] at h ⊢
        rcases hl : sendLogoutAndClose c with ⟨r, ca⟩
        rw [hl] at h
        cases r with
        | ok u => exact isConnected_without_socket _ rfl
        | throws e => simp at h
        | crash => simp at h
    rw [hnot]
    simp

/-- The instance of C9, amended, at an authenticated session with a working
transport. -/
theorem disconnect_idempotent_witness :
    (disconnect (authenticatedSession [])).1 = Res.ok () ∧
    disconnect (disconnect (authenticatedSession [])).2 =
      (Res.ok (), (disconnect (authenticatedSession [])).2) :=
  ⟨by decide!, (disconnect_idempotent (authenticatedSession [])).2 (by decide!)⟩

/-! ### Hierarchy separator -/

theorem initHierarchySeparatorLoop_eq (items : List continue_req_or_response_data)
    (c : IMAPConnection) :
    initHierarchySeparatorLoop items c =
      match (listDelimiters
        { continue_req_or_response_data := items, response_done := none }).head? with
      | some ch => (Res.ok true, { c with m_hierarchySeparator := ch })
      | none => (Res.ok false, c) := by
  induction items with
  | nil => simp [initHierarchySeparatorLoop, listDelimiters, pure, Op.pure]
  | cons item rest ih =>
    cases item with
    | continue_req text =>
      simpa [initHierarchySeparatorLoop, listDelimiters] using ih
    | response_data d =>
      cases d with
      | mailbox_data m =>
        cases m with
        | LIST list =>
          by_cases hq : list.quoted_char = Char.ofNat 0
          · simpa [initHierarchySeparatorLoop, listDelimiters, hq] using ih
          · simp [initHierarchySeparatorLoop, listDelimiters, hq, bind, Op.bind, update, pure,
              Op.pure]
        | FLAGS => simpa [initHierarchySeparatorLoop, listDelimiters] using ih
        | LSUB list => simpa [initHierarchySeparatorLoop, listDelimiters] using ih
        | SEARCH => simpa [initHierarchySeparatorLoop, listDelimiters] using ih
        | STATUS => simpa [initHierarchySeparatorLoop, listDelimiters] using ih
        | EXISTS => simpa [initHierarchySeparatorLoop, listDelimiters] using ih
        | RECENT => simpa [initHierarchySeparatorLoop, listDelimiters] using ih
      | capability_data capaData =>
        simpa [initHierarchySeparatorLoop, listDelimiters] using ih
      | resp_cond_state st =>
        simpa [initHierarchySeparatorLoop, listDelimiters] using ih
      | resp_cond_bye bye =>
        simpa [initHierarchySeparatorLoop, listDelimiters] using ih
      | message_data =>
        simpa [initHierarchySeparatorLoop, listDelimiters] using ih

/-- C10: when `LIST "" ""` was written and the parser delivers a response that ends in
tagged `OK`, `initHierarchySeparator` returns and the hierarchy separator is the
quoted-char of the first item, in arrival order, that is `LIST` mailbox-data with a
quoted-char other than NUL; continuation requests, other data and `LIST` items with a
NUL quoted-char are passed over, and without such an item the separator is a slash.
Nothing else of the state changes after the read. -/
theorem initHierarchySeparator_ok (c ca cb : IMAPConnection) (resp : response)
    (hsend : send true "LIST \"\" \"\"" true c = (Res.ok (), ca))
    (hread : readResponse ca = (Res.ok resp, cb))
    (hok : resp.isTaggedOK = true) :
    initHierarchySeparator c =
      (Res.ok (), { cb with m_hierarchySeparator := expectedSeparator resp }) := by
  unfold initHierarchySeparator
  rw [bind_of_ok _ _ _ _ _ hsend, bind_of_ok _ _ _ _ _ hread]
  have hbad : isBadOrNotOK resp cb = (Res.ok false, cb) := by
    rw [isBadOrNotOK_eq, hok]; rfl
  rw [bind_of_ok _ _ _ _ _ hbad]
  have hloop := initHierarchySeparatorLoop_eq resp.continue_req_or_response_data cb
  have hdel : listDelimiters
      { continue_req_or_response_data := resp.continue_req_or_response_data,
        response_done := none } = listDelimiters resp := rfl
  rw [hdel] at hloop
  cases hhead : (listDelimiters resp).head? with
  | none =>
    rw [hhead] at hloop
    simp [bind, Op.bind, hloop, pure, Op.pure, update, expectedSeparator, hhead]
  | some ch =>
    rw [hhead] at hloop
    simp [bind, Op.bind, hloop, pure, Op.pure, update, expectedSeparator, hhead]

/-- The instance of C10 at a session whose server answers `LIST` with a continuation
request, `FLAGS`, `LSUB`, a `LIST` item with NUL delimiter and two `LIST` items with
delimiters dot and slash: the separator becomes the dot. For an answer without items
the expected separator is the slash. -/
theorem initHierarchySeparator_ok_witness :
    (initHierarchySeparator (sessionWith ProtocolStates.STATE_NON_AUTHENTICATED
        [ParserEvent.response mixedListResponse])).1 = Res.ok () ∧
    (initHierarchySeparator (sessionWith ProtocolStates.STATE_NON_AUTHENTICATED
        [ParserEvent.response mixedListResponse])).2.m_hierarchySeparator = '.' ∧
    expectedSeparator (okResponse []) = '/' :=
  have h := initHierarchySeparator_ok
    (sessionWith ProtocolStates.STATE_NON_AUTHENTICATED [ParserEvent.response mixedListResponse])
    (send true "LIST \"\" \"\"" true (sessionWith ProtocolStates.STATE_NON_AUTHENTICATED
      [ParserEvent.response mixedListResponse])).2
    (readResponse (send true "LIST \"\" \"\"" true
      (sessionWith ProtocolStates.STATE_NON_AUTHENTICATED
        [ParserEvent.response mixedListResponse])).2).2
    mixedListResponse (by decide!) (by decide!) (by decide!)
  ⟨by rw [h], by rw [h]; decide!, by decide!⟩

/-! ### Authentication -/

theorem isBad_tagged (resp : response) (st : resp_cond_state)
    (hdone : resp.response_done = some (response_done.response_tagged st)) :
    resp.isBad = (st.status == Status.BAD) := by
  simp [response.isBad, hdone]

theorem taggedState_tagged (resp : response) (st : resp_cond_state) (c : IMAPConnection)
    (hdone : resp.response_done = some (response_done.response_tagged st)) :
    taggedState resp c = (Res.ok st, c) := by
  simp [taggedState, hdone, pure, Op.pure]

theorem throw_after_disconnect (e : Exn) (c : IMAPConnection) (h : isConnected c = false) :
    ((internalDisconnect >>= fun _ => (throwExn e : Op Unit)) c).1 = Res.throws e := by
  simp [bind, Op.bind, internalDisconnect_eq, h, throwExn]

/-- C11, as stated, fails in its `OK` case: `LOGIN` is answered by tagged
`OK [CAPABILITY IMAP4rev1 IDLE]`, a response that contains capability-data, and
`authenticate` returns with the cache empty and marked not fetched instead of holding
that capability list. -/
theorem login_ok_ignores_tagged_capability :
    containsCapabilityData okWithCapabilityCode = true ∧
    taggedCapabilityData okWithCapabilityCode =
      some { capabilities := [capability.atom "IMAP4rev1", capability.atom "IDLE"] } ∧
    (authenticate { implemented := [], preference := [] }
      (sessionWith ProtocolStates.STATE_NON_AUTHENTICATED
        [ParserEvent.response okWithCapabilityCode])).1 = Res.ok () ∧
    (authenticate { implemented := [], preference := [] }
      (sessionWith ProtocolStates.STATE_NON_AUTHENTICATED
        [ParserEvent.response okWithCapabilityCode])).2.m_capabilities = [] ∧
    ¬ ((authenticate { implemented := [], preference := [] }
      (sessionWith ProtocolStates.STATE_NON_AUTHENTICATED
        [ParserEvent.response okWithCapabilityCode])).2.m_capabilities =
          ["IMAP4REV1", "IDLE"]) ∧
    (authenticate { implemented := [], preference := [] }
      (sessionWith ProtocolStates.STATE_NON_AUTHENTICATED
        [ParserEvent.response okWithCapabilityCode])).2.m_capabilitiesFetched = false := by
  decide!

/-- C11, amended: in the LOGIN part of `authenticate()`, once `LOGIN` is written and
the parser delivers a response with a tagged status, that status decides the outcome.
`BAD`: `internalDisconnect` runs and then `command_error("LOGIN")` is raised. `NO`:
`internalDisconnect` runs and then `authentication_error` is raised with the error text
left by the SASL part, `LOGIN: ` and the text of the server. In both cases the named
exception is the one that leaves `authenticate` when the connection is not connected
(as in `connect()`, where the state is NonAuthenticated). `OK`: nothing is raised, and the
cache holds the first untagged capability-data of the response if it has one, and is
otherwise empty and marked not fetched. -/
theorem authenticateLogin_outcome (s_Error : String) (c ca cb : IMAPConnection)
    (resp : response) (st : resp_cond_state)
    (hsend : send true (loginCommand c) true c = (Res.ok (), ca))
    (hread : readResponse ca = (Res.ok resp, cb))
    (hdone : resp.response_done = some (response_done.response_tagged st)) :
    (st.status = Status.BAD →
      authenticateLogin s_Error c =
        (internalDisconnect >>= fun _ =>
          (throwExn (Exn.command_error "LOGIN") : Op Unit)) cb ∧
      (isConnected cb = false →
        (authenticateLogin s_Error c).1 = Res.throws (Exn.command_error "LOGIN"))) ∧
    (st.status = Status.NO →
      authenticateLogin s_Error c =
        (internalDisconnect >>= fun _ =>
          (throwExn (Exn.authentication_error
            (s_Error ++ "LOGIN: " ++ st.resp_text.text)) : Op Unit)) cb ∧
      (isConnected cb = false →
        (authenticateLogin s_Error c).1 =
          Res.throws (Exn.authentication_error
            (s_Error ++ "LOGIN: " ++ st.resp_text.text)))) ∧
    (st.status = Status.OK →
      authenticateLogin s_Error c =
        (Res.ok (),
          match (untaggedCapabilityData resp).head? with
          | some capaData => withCapabilities cb capaData
          | none => withoutCapabilities cb)) := by
  have hstep : authenticateLogin s_Error c =
      (if resp.isBad then
        (internalDisconnect >>= fun _ => (throwExn (Exn.command_error "LOGIN") : Op Unit)) cb
      else if st.status != Status.OK then
        (internalDisconnect >>= fun _ =>
          (throwExn (Exn.authentication_error
            (s_Error ++ "LOGIN: " ++ st.resp_text.text)) : Op Unit)) cb
      else
        (Res.ok (),
          match (untaggedCapabilityData resp).head? with
          | some capaData => withCapabilities cb capaData
          | none => withoutCapabilities cb)) := by
    unfold authenticateLogin
    simp only [loginCommand] at hsend
    simp only [bind, Op.bind, getThis, hsend, hread]
    have htag : ∀ c1, taggedState resp c1 = (Res.ok st, c1) :=
      fun c1 => taggedState_tagged resp st c1 hdone
    cases hb : resp.isBad
    · simp only [Bool.false_eq_true, if_false, pure, Op.pure, htag]
      cases hst : st.status with
      | OK =>
        simp [hst, pure, Op.pure, Op.bind, processCapabilityResponseData_eq, htag]
        cases (untaggedCapabilityData resp).head? <;>
          simp [invalidateCapabilities, update, withoutCapabilities, Op.pure]
      | NO =>
        simp [hst, pure, Op.pure, Op.bind, processCapabilityResponseData_eq, htag]
        rcases hd : internalDisconnect cb with ⟨r, cd⟩
        cases r <;> simp [throwExn]
      | BAD =>
        simp [hst, pure, Op.pure, Op.bind, processCapabilityResponseData_eq, htag]
        rcases hd : internalDisconnect cb with ⟨r, cd⟩
        cases r <;> simp [throwExn]
    · simp only [if_true]
      rcases hd : internalDisconnect cb with ⟨r, cd⟩
      cases r <;> simp [throwExn, Op.bind, hd]
  have hbad := isBad_tagged resp st hdone
  refine ⟨fun h => ?_, fun h => ?_, fun h => ?_⟩
  · have hb : resp.isBad = true := by rw [hbad, h]; rfl
    rw [hstep, hb]
    exact ⟨rfl, fun hcon => throw_after_disconnect _ cb hcon⟩
  · have hb : resp.isBad = false := by rw [hbad, h]; rfl
    rw [hstep, hb, h]
    exact ⟨rfl, fun hcon => throw_after_disconnect _ cb hcon⟩
  · have hb : resp.isBad = false := by rw [hbad, h]; rfl
    rw [hstep, hb, h]
    rfl

/-- The instance of C11, amended, at a session whose server answers `LOGIN` with tagged
`NO` after the SASL part left an error text; and the whole `connect()` against a server
that rejects `AUTHENTICATE` and then `LOGIN`. -/
theorem authenticateLogin_outcome_witness :
    (authenticateLogin "\nSASL DIGEST-MD5: mechanism failed\n"
      (sessionWith ProtocolStates.STATE_NON_AUTHENTICATED
        [ParserEvent.response (statusResponse Status.NO "invalid credentials")])).1 =
      Res.throws (Exn.authentication_error
        ("\nSASL DIGEST-MD5: mechanism failed\n" ++ "LOGIN: " ++ "invalid credentials")) ∧
    (connect rejectingNetwork (IMAPConnection.new saslStore saslAuth)).1 =
      Res.throws (Exn.authentication_error
        "\nSASL DIGEST-MD5: mechanism failed\nLOGIN: invalid credentials") :=
  ⟨((authenticateLogin_outcome "\nSASL DIGEST-MD5: mechanism failed\n"
      (sessionWith ProtocolStates.STATE_NON_AUTHENTICATED
        [ParserEvent.response (statusResponse Status.NO "invalid credentials")])
      (send true
        (loginCommand (sessionWith ProtocolStates.STATE_NON_AUTHENTICATED
          [ParserEvent.response (statusResponse Status.NO "invalid credentials")]))
        true
        (sessionWith ProtocolStates.STATE_NON_AUTHENTICATED
          [ParserEvent.response (statusResponse Status.NO "invalid credentials")])).2
      (readResponse (send true
        (loginCommand (sessionWith ProtocolStates.STATE_NON_AUTHENTICATED
          [ParserEvent.response (statusResponse Status.NO "invalid credentials")]))
        true
        (sessionWith ProtocolStates.STATE_NON_AUTHENTICATED
          [ParserEvent.response (statusResponse Status.NO "invalid credentials")])).2).2
      (statusResponse Status.NO "invalid credentials")
      { status := Status.NO, resp_text := plainText "invalid credentials" }
      (by decide!) (by decide!) rfl).2.1 rfl).2 (by decide!),
   by decide!⟩

/-! ### Connection bring-up -/

/-- C12: the evaluation of the code on `connect()` with `connection.tls` and
`connection.tls.required` set, no IMAPS, against a server that answers `STARTTLS` with
tagged `BAD`. `connect()` throws `command_error("STARTTLS")`, the only line written is
`a001 STARTTLS`, and the protocol state is None, as the claim says; but the transport is
still attached to the connection and still open. -/
theorem starttls_refused_leaves_transport_open :
    starttlsRefusedConnect.1 = Res.throws (Exn.command_error "STARTTLS") ∧
    sentLines starttlsRefusedConnect.2 = ["a001 STARTTLS\r\n"] ∧
    starttlsRefusedConnect.2.m_state = ProtocolStates.STATE_NONE ∧
    starttlsRefusedConnect.2.m_socket.map Socket.connected = some true ∧
    ¬ (starttlsRefusedConnect.2.m_socket.map Socket.connected = some false) ∧
    starttlsRefusedConnect.2.m_socket ≠ none := by
  decide!

/-- C13: the evaluation of the code on the three places where the claim compares the
parser's byte source with the connection's transport. After `connect()` with `LOGIN`
they are the same socket, and so they are after a successful `startTLS()`, which hands
the TLS socket to the parser. After `connect()` with a SASL mechanism that negotiates a
security layer, the exchange ends with tagged `OK`, the secured socket becomes the
transport of the connection, and the parser still reads from the socket below it. -/
theorem sasl_secured_socket_bypasses_parser_source :
    parserSource (authenticatedSession []) = some 0 ∧
    transportId (authenticatedSession []) = some 0 ∧
    (startTLS (sessionWith ProtocolStates.STATE_NON_AUTHENTICATED
      [ParserEvent.response (okResponse [])])).1 = Res.ok () ∧
    parserSource (startTLS (sessionWith ProtocolStates.STATE_NON_AUTHENTICATED
      [ParserEvent.response (okResponse [])])).2 = some 1 ∧
    transportId (startTLS (sessionWith ProtocolStates.STATE_NON_AUTHENTICATED
      [ParserEvent.response (okResponse [])])).2 = some 1 ∧
    saslConnect.1 = Res.ok () ∧
    saslConnect.2.m_state = ProtocolStates.STATE_AUTHENTICATED ∧
    sentLines saslConnect.2 =
      ["a001 AUTHENTICATE DIGEST-MD5\r\n", "cmVzcG9uc2U=\r\n", "a002 LIST \"\" \"\"\r\n"] ∧
    transportId saslConnect.2 = some 1 ∧
    parserSource saslConnect.2 = some 0 ∧
    parserSource saslConnect.2 ≠ transportId saslConnect.2 := by
  decide!

end Vmime
